import Mathlib

/-!
Verification of the DataFold agent core against its specification.

The Python sources are shallowly embedded:
* machine integers are `Nat`/`Int` (Python integers are arbitrary precision);
* `datetime` instants are `Int` seconds since the epoch and `timedelta`
  arithmetic is plain integer arithmetic on seconds;
* Python `float` statistics are embedded over `ℚ` (exact values), with the
  one genuinely irrational operation, `math.sqrt` inside `statistics.stdev`,
  embedded as `Real.sqrt`;
* dictionaries keyed by strings are embedded as association lists;
* I/O (HTTP responses, the wall clock, environment variables, UUIDs) is
  passed in explicitly as oracle parameters.

`hashlib.sha256` is embedded by a full executable SHA-256 over byte lists.
-/

namespace DataFold

/-! ## SHA-256 (embedding of `hashlib.sha256(...).hexdigest()`)

Bytes are `Nat`s below 256, words are `Nat`s below 2^32. -/

def w32 : Nat := 4294967296

/-- 32-bit right rotation. -/
def rotr (n x : Nat) : Nat := ((x >>> n) ||| (x <<< (32 - n))) % w32

/-- 32-bit bitwise complement. -/
def not32 (x : Nat) : Nat := x ^^^ (w32 - 1)

def bigSigma0 (x : Nat) : Nat := (rotr 2 x) ^^^ (rotr 13 x) ^^^ (rotr 22 x)

def bigSigma1 (x : Nat) : Nat := (rotr 6 x) ^^^ (rotr 11 x) ^^^ (rotr 25 x)

def smallSigma0 (x : Nat) : Nat := (rotr 7 x) ^^^ (rotr 18 x) ^^^ (x >>> 3)

def smallSigma1 (x : Nat) : Nat := (rotr 17 x) ^^^ (rotr 19 x) ^^^ (x >>> 10)

def chFn (e f g : Nat) : Nat := (e &&& f) ^^^ ((not32 e) &&& g)

def majFn (a b c : Nat) : Nat := (a &&& b) ^^^ (a &&& c) ^^^ (b &&& c)

/-- The 64 SHA-256 round constants (FIPS 180-4, given in decimal). -/
def sha256K : List Nat :=
  [1116352408, 1899447441, 3049323471, 3921009573, 961987163,
   1508970993, 2453635748, 2870763221, 3624381080, 310598401,
   607225278, 1426881987, 1925078388, 2162078206, 2614888103,
   3248222580, 3835390401, 4022224774, 264347078, 604807628,
   770255983, 1249150122, 1555081692, 1996064986, 2554220882,
   2821834349, 2952996808, 3210313671, 3336571891, 3584528711,
   113926993, 338241895, 666307205, 773529912, 1294757372,
   1396182291, 1695183700, 1986661051, 2177026350, 2456956037,
   2730485921, 2820302411, 3259730800, 3345764771, 3516065817,
   3600352804, 4094571909, 275423344, 430227734, 506948616,
   659060556, 883997877, 958139571, 1322822218, 1537002063,
   1747873779, 1955562222, 2024104815, 2227730452, 2361852424,
   2428436474, 2756734187, 3204031479, 3329325298]

/-- Big-endian bytes of `n`, `k` bytes wide. -/
def toBytesBE (k n : Nat) : List Nat :=
  (List.range k).map fun i => (n >>> (8 * (k - 1 - i))) % 256

/-- SHA-256 padding: append 0x80, zero bytes up to 56 mod 64, then the
bit length as 8 big-endian bytes. -/
def sha256Pad (msg : List Nat) : List Nat :=
  let padZeros := (64 + 55 - msg.length % 64) % 64
  msg ++ 128 :: List.replicate padZeros 0 ++ toBytesBE 8 (msg.length * 8)

/-- Split a byte list into 64-byte blocks. -/
def chunks64 (l : List Nat) : List (List Nat) :=
  (List.range ((l.length + 63) / 64)).map fun i => (l.drop (64 * i)).take 64

/-- The 16 big-endian 32-bit words of one 64-byte block. -/
def blockWords (block : List Nat) : List Nat :=
  (List.range 16).map fun i =>
    block.getD (4 * i) 0 * 16777216 + block.getD (4 * i + 1) 0 * 65536 +
      block.getD (4 * i + 2) 0 * 256 + block.getD (4 * i + 3) 0

/-- One extension step of the message schedule: append word `w.length`. -/
def scheduleStep (w : List Nat) : List Nat :=
  w ++ [(smallSigma1 (w.getD (w.length - 2) 0) + w.getD (w.length - 7) 0 +
         smallSigma0 (w.getD (w.length - 15) 0) + w.getD (w.length - 16) 0) % w32]

/-- The full 64-word message schedule of a block. -/
def schedule (block : List Nat) : List Nat :=
  (List.range 48).foldl (fun w _ => scheduleStep w) (blockWords block)

/-- SHA-256 working state, the registers a–h. -/
structure Sha256State where
  a : Nat
  b : Nat
  c : Nat
  d : Nat
  e : Nat
  f : Nat
  g : Nat
  h : Nat

/-- One compression round with round constant `k` and schedule word `wt`. -/
def sha256Round (s : Sha256State) (kw : Nat × Nat) : Sha256State :=
  let t1 := (s.h + bigSigma1 s.e + chFn s.e s.f s.g + kw.1 + kw.2) % w32
  let t2 := (bigSigma0 s.a + majFn s.a s.b s.c) % w32
  { a := (t1 + t2) % w32, b := s.a, c := s.b, d := s.c,
    e := (s.d + t1) % w32, f := s.e, g := s.f, h := s.g }

/-- Compress one 64-byte block into the running hash state. -/
def sha256Compress (s : Sha256State) (block : List Nat) : Sha256State :=
  let t := (sha256K.zip (schedule block)).foldl sha256Round s
  { a := (s.a + t.a) % w32, b := (s.b + t.b) % w32, c := (s.c + t.c) % w32,
    d := (s.d + t.d) % w32, e := (s.e + t.e) % w32, f := (s.f + t.f) % w32,
    g := (s.g + t.g) % w32, h := (s.h + t.h) % w32 }

/-- The SHA-256 initial hash value. -/
def sha256Init : Sha256State :=
  { a := 1779033703, b := 3144134277, c := 1013904242, d := 2773480762,
    e := 1359893119, f := 2600822924, g := 528734635, h := 1541459225 }

/-- SHA-256 digest of a byte list, as 32 bytes. -/
def sha256 (msg : List Nat) : List Nat :=
  let s := (chunks64 (sha256Pad msg)).foldl sha256Compress sha256Init
  toBytesBE 4 s.a ++ toBytesBE 4 s.b ++ toBytesBE 4 s.c ++ toBytesBE 4 s.d ++
    toBytesBE 4 s.e ++ toBytesBE 4 s.f ++ toBytesBE 4 s.g ++ toBytesBE 4 s.h

/-- Lower-case hex digit for a value below 16. -/
def hexChar (n : Nat) : Char :=
  if n < 10 then Char.ofNat (48 + n) else Char.ofNat (87 + n)

/-- Hex digest of a byte list (embeds `.hexdigest()`). -/
def hexDigest (bytes : List Nat) : String :=
  String.mk (bytes.flatMap fun b => [hexChar (b / 16), hexChar (b % 16)])

/-- UTF-8 bytes of a string. All strings hashed by this program are ASCII,
for which UTF-8 is the identity on code points. -/
def strBytes (s : String) : List Nat := s.data.map Char.toNat

/-- Embedding of `hashlib.sha256(s.encode()).hexdigest()`. -/
def sha256HexOfString (s : String) : String := hexDigest (sha256 (strBytes s))

/-! ## Core data models (embedding of `src/datafold/models.py`) -/

/-- Embedding of `models.CollectStatus`. -/
inductive CollectStatus where
  | SUCCESS
  | COLLECT_FAILED
deriving DecidableEq

/-- Embedding of `models.DecisionStatus`. -/
inductive DecisionStatus where
  | OK
  | WARNING
  | ANOMALY
  | UNKNOWN
deriving DecidableEq

/-- The `.value` of a `DecisionStatus` member (it is a `str` enum). -/
def DecisionStatus.value : DecisionStatus → String
  | .OK => "OK"
  | .WARNING => "WARNING"
  | .ANOMALY => "ANOMALY"
  | .UNKNOWN => "UNKNOWN"

/-- Embedding of `models.EventType`. -/
inductive EventType where
  | ANOMALY
  | WARNING
  | RECOVERY
  | INFO
deriving DecidableEq

/-- The `.value` of an `EventType` member (it is a `str` enum). -/
def EventType.value : EventType → String
  | .ANOMALY => "anomaly"
  | .WARNING => "warning"
  | .RECOVERY => "recovery"
  | .INFO => "info"

/-- The two recognized keys of the semi-structured `metrics` mapping of a
snapshot (`row_count`, `latest_timestamp`); other keys are stored verbatim
by the program and never read by the code under verification. -/
structure Metrics where
  row_count : Option Int := none
  latest_timestamp : Option Int := none
deriving DecidableEq

/-- Embedding of `models.DataSnapshot` (the fields read by the code under
verification; the free-form `metadata` mapping is not read by it). -/
structure DataSnapshot where
  source_name : String
  collected_at : Int
  collect_status : CollectStatus
  metrics : Metrics
deriving DecidableEq

/-- Embedding of the `DataSnapshot.row_count` property. -/
def DataSnapshot.row_count (s : DataSnapshot) : Option Int := s.metrics.row_count

/-- Embedding of the `DataSnapshot.latest_timestamp` property. -/
def DataSnapshot.latest_timestamp (s : DataSnapshot) : Option Int :=
  s.metrics.latest_timestamp

/-- Embedding of `models.Reason`. -/
structure Reason where
  code : String
  message : String
deriving DecidableEq

/-- Embedding of `models.BaselineSummary`. The statistics are exact: the
Python `float` medians are `ℚ` and the standard deviation (a square root)
lives in `ℝ`. -/
structure BaselineSummary where
  snapshot_count : Nat
  row_count_median : Option ℚ
  row_count_min : Option ℚ
  row_count_max : Option ℚ
  row_count_stddev : Option ℝ
  expected_interval_seconds : Option ℚ
  oldest_snapshot_at : Option Int
  newest_snapshot_at : Option Int

/-- Embedding of `models.Decision`. -/
structure Decision where
  status : DecisionStatus
  reasons : List Reason
  metrics : Metrics
  baseline_summary : Option BaselineSummary
  confidence : ℚ := 1

/-- Lexicographic comparison of character lists by code point: the string
order Python's `sorted` uses. -/
def charListLe (u v : List Char) : Bool :=
  match u, v with
  | [], _ => true
  | _ :: _, [] => false
  | x :: xs, y :: ys =>
    if x.toNat < y.toNat then true
    else if y.toNat < x.toNat then false
    else charListLe xs ys

/-- String comparison by code points (Python's `<=` on `str`). -/
def strLe (a b : String) : Bool := charListLe a.data b.data

/-- Sorting of reason-code strings: embedding of Python's `sorted`, which
orders strings lexicographically by code point. -/
def sortedStrings (l : List String) : List String :=
  List.insertionSort (fun a b => strLe a b = true) l

/-- JSON rendering of a string literal. The strings serialized by
`Decision.reason_hash` (status values and reason codes) contain only
unescaped ASCII, for which `json.dumps` adds only the surrounding quotes. -/
def jsonStringLit (s : String) : String := "\"" ++ s ++ "\""

/-- Joins rendered JSON items with `json.dumps`' default item separator. -/
def commaSpaceSep : List String → String
  | [] => ""
  | [x] => x
  | x :: xs => x ++ ", " ++ commaSpaceSep xs

/-- The exact text of
`json.dumps({"status": v, "reason_codes": codes}, sort_keys=True)`:
keys sorted (`reason_codes` before `status`), default separators. -/
def reasonHashJson (statusValue : String) (codes : List String) : String :=
  "\x7b\"reason_codes\": [" ++ commaSpaceSep (codes.map jsonStringLit) ++
    "], \"status\": " ++ jsonStringLit statusValue ++ "\x7d"

/-- Embedding of the `Decision.reason_hash` property: first 16 hex chars of
the SHA-256 of the canonical JSON over `(status, sorted reason codes)`. -/
def Decision.reason_hash (d : Decision) : String :=
  (sha256HexOfString
    (reasonHashJson d.status.value (sortedStrings (d.reasons.map Reason.code)))).take 16

/-- Embedding of `models.AlertState`. -/
structure AlertState where
  source_name : String
  target_name : String
  notified_status : DecisionStatus
  notified_reason_hash : String
  last_change_at : Int
  last_sent_at : Option Int
  cooldown_until : Option Int

/-- Embedding of `models.AlertState.should_alert` (the `cooldown_minutes`
parameter is unused by the source, and `now` is explicit). A non-`None`
`cooldown_until` datetime is always truthy in Python. -/
def AlertState.should_alert (state : AlertState) (decision : Decision)
    (now : Int) : Bool :=
  match state.cooldown_until with
  | some c =>
    if now < c then false
    else !(decision.status = state.notified_status &&
           decision.reason_hash = state.notified_reason_hash)
  | none =>
    !(decision.status = state.notified_status &&
      decision.reason_hash = state.notified_reason_hash)

/-- Embedding of `models.DeliveryResult`. The wall-clock `latency_ms` field
is carried but its value is not modelled for real deliveries. -/
structure DeliveryResult where
  success : Bool
  status_code : Option Nat := none
  error : Option String := none
  latency_ms : Option Nat := none
  attempts : Nat := 1
deriving DecidableEq

/-! ## Configuration (embedding of `src/datafold/config.py`) -/

/-- Embedding of `config.FreshnessConfig`. -/
structure FreshnessConfig where
  max_age_hours : Option ℚ := none
  factor : ℚ := 2

/-- Embedding of `config.VolumeConfig`. -/
structure VolumeConfig where
  min_row_count : Option Int := none
  deviation_factor : ℚ := 3

/-- Embedding of `config.SourceConfig` (the fields the detection engine and
the alerting pipeline read). -/
structure SourceConfig where
  name : String
  type : String := "sql"
  freshness : FreshnessConfig := {}
  volume : VolumeConfig := {}
  schema_drift : Bool := true

/-- Embedding of `config.WebhookConfig`. -/
structure WebhookConfig where
  name : String
  url : String
  secret : Option String := none
  events : List String := ["anomaly", "recovery"]
  timeout_seconds : Nat := 10
deriving DecidableEq

/-- Embedding of `config.AlertingConfig`. -/
structure AlertingConfig where
  cooldown_minutes : Nat := 60
  webhooks : List WebhookConfig := []

/-! ## Detection engine (embedding of `src/datafold/detection/engine.py`)

Only the members the claims are about are embedded: `_calculate_baseline`,
`_check_volume`, `_determine_status` and `_calculate_confidence`. -/

/-- Fixed-point decimal rendering standing for Python's `f"{x:.df}"` float
formatting; used only inside human-readable reason messages. -/
def fmtFixed (d : Nat) (q : ℚ) : String :=
  let n : ℤ := round (q * (10 : ℚ) ^ d)
  let sign := if n < 0 then "-" else ""
  let m := n.natAbs
  if d = 0 then sign ++ toString m
  else
    let frac := toString (m % 10 ^ d)
    let frac := String.mk (List.replicate (d - frac.length) (Char.ofNat 48)) ++ frac
    sign ++ toString (m / 10 ^ d) ++ "." ++ frac

/-- Embedding of `statistics.median`: middle of the sorted list, or the mean
of the two middle values for even length (callers guard against `[]`). -/
def pyMedian (xs : List ℚ) : ℚ :=
  let s := List.insertionSort (· ≤ ·) xs
  let n := s.length
  if n % 2 = 1 then s.getD (n / 2) 0
  else (s.getD (n / 2 - 1) 0 + s.getD (n / 2) 0) / 2

/-- Embedding of Python `min` over a non-empty list. -/
def pyMin (xs : List ℚ) : Option ℚ :=
  match xs with
  | [] => none
  | x :: t => some (t.foldl min x)

/-- Embedding of Python `max` over a non-empty list. -/
def pyMax (xs : List ℚ) : Option ℚ :=
  match xs with
  | [] => none
  | x :: t => some (t.foldl max x)

/-- Arithmetic mean, as used by `statistics.stdev`. -/
def listMean (xs : List ℚ) : ℚ := xs.sum / xs.length

/-- The sample variance `Σ (x - mean)² / (n - 1)` of `statistics.stdev`. -/
def sampleVariance (xs : List ℚ) : ℚ :=
  (xs.map fun x => (x - listMean xs) ^ 2).sum / ((xs.length : ℚ) - 1)

/-- Embedding of `statistics.stdev`: the sample standard deviation, the
square root of the sample variance. -/
noncomputable def sampleStdDev (xs : List ℚ) : ℝ :=
  Real.sqrt (sampleVariance xs)

/-- Embedding of Python `min` over a non-empty list of instants. -/
def pyMinInt (xs : List Int) : Option Int :=
  match xs with
  | [] => none
  | x :: t => some (t.foldl min x)

/-- Embedding of Python `max` over a non-empty list of instants. -/
def pyMaxInt (xs : List Int) : Option Int :=
  match xs with
  | [] => none
  | x :: t => some (t.foldl max x)

/-- The `row_count` values present in a history, in history order
(`[s.row_count for s in history if s.row_count is not None]`). -/
def rowCountsOf (history : List DataSnapshot) : List ℚ :=
  (history.filterMap DataSnapshot.row_count).map fun n => (n : ℚ)

/-- Consecutive `collected_at` gaps (seconds) of the history sorted
ascending by `collected_at`. -/
def sortedIntervals (history : List DataSnapshot) : List ℚ :=
  let s := List.insertionSort (fun a b => a.collected_at ≤ b.collected_at) history
  (s.zip s.tail).map fun p => ((p.2.collected_at - p.1.collected_at : ℤ) : ℚ)

/-- Embedding of `DetectionEngine._calculate_baseline`. -/
noncomputable def calculate_baseline (history : List DataSnapshot) : BaselineSummary :=
  if history = [] then
    { snapshot_count := 0, row_count_median := none, row_count_min := none,
      row_count_max := none, row_count_stddev := none,
      expected_interval_seconds := none, oldest_snapshot_at := none,
      newest_snapshot_at := none }
  else
    let row_counts := rowCountsOf history
    let intervals := sortedIntervals history
    { snapshot_count := history.length
      row_count_median := if row_counts ≠ [] then some (pyMedian row_counts) else none
      row_count_min := pyMin row_counts
      row_count_max := pyMax row_counts
      row_count_stddev :=
        some (if 1 < row_counts.length then sampleStdDev row_counts else 0)
      expected_interval_seconds :=
        if intervals ≠ [] then some (pyMedian intervals) else none
      oldest_snapshot_at := pyMinInt (history.map DataSnapshot.collected_at)
      newest_snapshot_at := pyMaxInt (history.map DataSnapshot.collected_at) }

open Classical in
/-- Embedding of `DetectionEngine._check_volume`. -/
noncomputable def check_volume (current : DataSnapshot) (config : SourceConfig)
    (baseline : BaselineSummary) : List Reason :=
  match current.row_count with
  | none => []
  | some row_count =>
    let belowReasons : List Reason :=
      match config.volume.min_row_count with
      | some m =>
        if row_count < m then
          [{ code := "BELOW_MIN_VOLUME",
             message := "Row count " ++ toString row_count ++
               " is below minimum threshold of " ++ toString m }]
        else []
      | none => []
    let baselineReasons : List Reason :=
      match baseline.row_count_median with
      | some median =>
        if 3 ≤ baseline.snapshot_count then
          match baseline.row_count_stddev with
          | some stddev =>
            if 0 < stddev then
              let z : ℝ := |((row_count : ℚ) : ℝ) - ((median : ℚ) : ℝ)| / stddev
              if ((config.volume.deviation_factor : ℚ) : ℝ) < z then
                if (row_count : ℚ) < median then
                  let pct := (median - (row_count : ℚ)) / median * 100
                  [{ code := "VOLUME_LOW",
                     message := "Row count " ++ toString row_count ++ " is " ++
                       fmtFixed 1 pct ++ "% below baseline median (" ++
                       fmtFixed 0 median ++ ")" }]
                else
                  let pct := ((row_count : ℚ) - median) / median * 100
                  [{ code := "VOLUME_HIGH",
                     message := "Row count " ++ toString row_count ++ " is " ++
                       fmtFixed 1 pct ++ "% above baseline median (" ++
                       fmtFixed 0 median ++ ")" }]
              else []
            else if row_count = 0 ∧ 0 < median then
              [{ code := "ZERO_VOLUME",
                 message := "Row count is 0, baseline median is " ++
                   fmtFixed 0 median }]
            else []
          | none =>
            if row_count = 0 ∧ 0 < median then
              [{ code := "ZERO_VOLUME",
                 message := "Row count is 0, baseline median is " ++
                   fmtFixed 0 median }]
            else []
        else []
      | none => []
    belowReasons ++ baselineReasons

/-- The critical reason codes of `_determine_status`. -/
def critical_codes : List String :=
  ["COLLECT_FAILED", "ZERO_VOLUME", "BELOW_MIN_VOLUME", "STALE_DATA",
   "SCHEMA_DRIFT"]

/-- The warning reason codes of `_determine_status`. -/
def warning_codes : List String :=
  ["VOLUME_LOW", "VOLUME_HIGH", "COLLECTION_GAP", "NO_NEW_DATA"]

/-- Embedding of `DetectionEngine._determine_status`: the early-returning
`for` loops become `List.any`. -/
def determine_status (reasons : List Reason) : DecisionStatus :=
  if reasons = [] then DecisionStatus.OK
  else if reasons.any fun r => r.code ∈ critical_codes then DecisionStatus.ANOMALY
  else if reasons.any fun r => r.code ∈ warning_codes then DecisionStatus.WARNING
  else DecisionStatus.OK

/-- Embedding of `DetectionEngine._calculate_confidence`. -/
def calculate_confidence (baseline : BaselineSummary) : ℚ :=
  if baseline.snapshot_count = 0 then 0
  else if baseline.snapshot_count < 3 then 3 / 10
  else if baseline.snapshot_count < 10 then 6 / 10
  else if baseline.snapshot_count < 20 then 8 / 10
  else 95 / 100

/-! ## Webhook delivery (embedding of `driftguard/alerting/webhook.py`)

The HTTP transport is an oracle `Nat → HttpOutcome` giving the outcome of
each 1-indexed POST attempt.  `time.sleep` calls are recorded as the list of
slept durations; wall-clock latency is not modelled. -/

/-- Outcome of one HTTP POST attempt: a status-code response, or one of the
exception classes the source catches. -/
inductive HttpOutcome where
  | response (status : Nat)
  | timeout
  | connectError (msg : String)
  | exceptionRaised (msg : String)
deriving DecidableEq

/-- Embedding of `RETRY_DELAYS`. -/
def RETRY_DELAYS : List Nat := [1, 5, 15]

/-- Embedding of `RETRYABLE_STATUS_CODES`. -/
def RETRYABLE_STATUS_CODES : List Nat := [408, 429, 500, 502, 503, 504]

/-- The `last_error` string the source records for a failed attempt
(`str(e)[:200]` truncates the exception text). -/
def lastErrorText : HttpOutcome → String
  | .response st => "HTTP " ++ toString st
  | .timeout => "Request timed out"
  | .connectError m => "Connection failed: " ++ m.take 200
  | .exceptionRaised m => "Unexpected error: " ++ m.take 200

/-- Update of the running `last_status` variable by one attempt outcome:
set on every response, untouched by exceptions. -/
def lastStatusUpd (ls : Option Nat) (o : HttpOutcome) : Option Nat :=
  match o with
  | .response st => some st
  | _ => ls

/-- The `last_status` variable after a list of attempt outcomes. -/
def lastStatusOf (outcomes : List HttpOutcome) : Option Nat :=
  outcomes.foldl lastStatusUpd none

/-- The attempt loop of `WebhookDelivery.deliver`, over the remaining
`(attempt, delay)` pairs of `enumerate(RETRY_DELAYS + [0], 1)`.  Carries the
`last_error` / `last_status` / `attempts` variables; returns the result and
the recorded sleeps. -/
def deliverLoop (outcome : Nat → HttpOutcome) :
    List (Nat × Nat) → Option String → Option Nat → Nat →
    DeliveryResult × List Nat
  | [], last_error, last_status, attempts =>
    ({ success := false, status_code := last_status, error := last_error,
       latency_ms := none, attempts := attempts }, [])
  | (attempt, delay) :: rest, _, last_status, _ =>
    match outcome attempt with
    | .response st =>
      if st < 400 then
        ({ success := true, status_code := some st, latency_ms := none,
           attempts := attempt }, [])
      else if st ∈ RETRYABLE_STATUS_CODES then
        let sleeps := if 0 < delay ∧ attempt < RETRY_DELAYS.length + 1 then [delay] else []
        let r := deliverLoop outcome rest (some ("HTTP " ++ toString st)) (some st) attempt
        (r.1, sleeps ++ r.2)
      else
        ({ success := true, status_code := some st, latency_ms := none,
           attempts := attempt }, [])
    | o =>
      let sleeps := if 0 < delay ∧ attempt < RETRY_DELAYS.length + 1 then [delay] else []
      let r := deliverLoop outcome rest (some (lastErrorText o)) last_status attempt
      (r.1, sleeps ++ r.2)

/-- Embedding of `WebhookDelivery.deliver`: dry-run short-circuit, then up
to four attempts with delays 1 s, 5 s, 15 s between them. -/
def deliver (outcome : Nat → HttpOutcome) (dry_run : Bool) :
    DeliveryResult × List Nat :=
  if dry_run then
    ({ success := true, status_code := some 200, latency_ms := some 0,
       attempts := 0 }, [])
  else
    deliverLoop outcome
      ((List.range' 1 (RETRY_DELAYS.length + 1)).zip (RETRY_DELAYS ++ [0]))
      none none 0

/-! ## State store mutation model (for the alerting pipeline)

The pipeline sees the store through `get_alert_state` / `set_alert_state` /
`log_delivery` of `storage/sqlite.py`; its state is the `alert_state` table
(keyed by `(source_name, target_name)`, `INSERT OR REPLACE` semantics) plus
the append-only `deliveries` log. -/

/-- One row of the `deliveries` table as written by `log_delivery`. -/
structure DeliveryLogEntry where
  source_name : String
  target_name : String
  event_type : String
  payload_hash : String
  sent_at : Int
  success : Bool
  status_code : Option Nat
  latency_ms : Option Nat
  error_message : Option String
  attempts : Nat

/-- The store state visible to the alerting pipeline. -/
structure StoreState where
  alert_states : List AlertState
  deliveries : List DeliveryLogEntry

/-- Embedding of `SQLiteStateStore.get_alert_state`: lookup on the composite
primary key. -/
def get_alert_state (store : StoreState) (source target : String) :
    Option AlertState :=
  store.alert_states.find? fun a =>
    decide (a.source_name = source ∧ a.target_name = target)

/-- Embedding of `SQLiteStateStore.set_alert_state`: `INSERT OR REPLACE` on
the composite primary key. -/
def set_alert_state (store : StoreState) (state : AlertState) : StoreState :=
  { store with
    alert_states :=
      (store.alert_states.filter fun a =>
        ¬(a.source_name = state.source_name ∧ a.target_name = state.target_name)) ++
      [state] }

/-- Embedding of `SQLiteStateStore.log_delivery`: appends one row. -/
def log_delivery (store : StoreState) (entry : DeliveryLogEntry) : StoreState :=
  { store with deliveries := store.deliveries ++ [entry] }

/-! ## Alerting pipeline (embedding of `src/datafold/alerting/pipeline.py`)

The ambient I/O of one `process` call is an explicit environment: the wall
clock, the HTTP delivery outcome per resolved webhook, the process
environment used by `resolve_env_vars`, and the canonical payload body built
per `(event type, webhook)` (its UUID `event_id` and build timestamp are
fresh I/O values). -/

structure PipelineEnv where
  config : AlertingConfig
  agent_id : String
  dry_run : Bool
  /-- `datetime.now(timezone.utc)` during this `process` call. -/
  now : Int
  /-- Outcome of `WebhookDelivery.deliver` for a resolved webhook config. -/
  deliver_result : WebhookConfig → DeliveryResult
  /-- Embedding of `config.resolve_env_vars` over the process environment. -/
  resolve_env : String → String
  /-- `payload.to_canonical_json()` for the payload built for this event
  type and webhook (contains the fresh `event_id` UUID). -/
  canonical_body : EventType → WebhookConfig → String

namespace AlertingPipeline

/-- Embedding of `AlertingPipeline._get_event_type`. -/
def _get_event_type (decision : Decision) : EventType :=
  if decision.status = DecisionStatus.ANOMALY then EventType.ANOMALY
  else if decision.status = DecisionStatus.WARNING then EventType.WARNING
  else if decision.status = DecisionStatus.OK then EventType.RECOVERY
  else EventType.INFO

/-- Embedding of `AlertingPipeline._should_process_event`. -/
def _should_process_event (webhook : WebhookConfig) (event_type : EventType) :
    Bool :=
  decide (event_type.value ∈ webhook.events)

/-- Embedding of `AlertingPipeline._should_alert` (the source's final two
branches both return `True`, so they are a single `true` here). -/
def _should_alert (decision : Decision) (state : AlertState) (now : Int) :
    Bool :=
  match state.cooldown_until with
  | some c =>
    if now < c then false
    else
      if decision.status = state.notified_status ∧
          decision.reason_hash = state.notified_reason_hash then false
      else true
  | none =>
    if decision.status = state.notified_status ∧
        decision.reason_hash = state.notified_reason_hash then false
    else true

/-- The `AlertState` synthesized by `process` when the store has none. -/
def syntheticState (now : Int) (source target : String) : AlertState :=
  { source_name := source, target_name := target,
    notified_status := DecisionStatus.UNKNOWN, notified_reason_hash := "",
    last_change_at := now, last_sent_at := none, cooldown_until := none }

/-- The `resolved_webhook` local of `_send_alert`: the webhook config with
`${VAR}` placeholders in url and secret resolved. -/
def resolvedWebhook (env : PipelineEnv) (webhook : WebhookConfig) :
    WebhookConfig :=
  { name := webhook.name, url := env.resolve_env webhook.url,
    secret := webhook.secret.map env.resolve_env,
    events := webhook.events, timeout_seconds := webhook.timeout_seconds }

/-- The `deliveries` row `_send_alert` passes to `log_delivery`: the
delivery result and the first 16 hex chars of the SHA-256 of the canonical
payload body. -/
def sendLogEntry (env : PipelineEnv) (source_config : SourceConfig)
    (event_type : EventType) (webhook : WebhookConfig) : DeliveryLogEntry :=
  let result := env.deliver_result (resolvedWebhook env webhook)
  { source_name := source_config.name, target_name := webhook.name,
    event_type := event_type.value,
    payload_hash :=
      (sha256HexOfString (env.canonical_body event_type webhook)).take 16,
    sent_at := env.now, success := result.success,
    status_code := result.status_code, latency_ms := result.latency_ms,
    error_message := result.error, attempts := result.attempts }

/-- The `new_state` local of `_send_alert`, written on successful dispatch. -/
def newAlertState (env : PipelineEnv) (source_config : SourceConfig)
    (decision : Decision) (webhook : WebhookConfig) : AlertState :=
  { source_name := source_config.name, target_name := webhook.name,
    notified_status := decision.status,
    notified_reason_hash := decision.reason_hash,
    last_change_at := env.now, last_sent_at := some env.now,
    cooldown_until := some (env.now + env.config.cooldown_minutes * 60) }

/-- Embedding of `AlertingPipeline._send_alert`. -/
def _send_alert (env : PipelineEnv) (source_config : SourceConfig)
    (decision : Decision) (event_type : EventType) (webhook : WebhookConfig)
    (store : StoreState) : Bool × StoreState :=
  if env.dry_run then (true, store)
  else
    let result := env.deliver_result (resolvedWebhook env webhook)
    let store :=
      log_delivery store (sendLogEntry env source_config event_type webhook)
    if result.success then
      (result.success,
        set_alert_state store (newAlertState env source_config decision webhook))
    else (result.success, store)

/-- The webhook loop of `AlertingPipeline.process`, over the remaining
webhooks. Python's `results` dict is an association list in insertion
order; a `continue` before the dict write leaves no entry. -/
def processLoop (env : PipelineEnv) (source_config : SourceConfig)
    (decision : Decision) :
    List WebhookConfig → StoreState → List (String × Bool) × StoreState
  | [], store => ([], store)
  | webhook :: rest, store =>
    let event_type := _get_event_type decision
    if _should_process_event webhook event_type then
      let state :=
        (get_alert_state store source_config.name webhook.name).getD
          (syntheticState env.now source_config.name webhook.name)
      if _should_alert decision state env.now then
        let sent := _send_alert env source_config decision event_type webhook store
        let r := processLoop env source_config decision rest sent.2
        ((webhook.name, sent.1) :: r.1, r.2)
      else
        let r := processLoop env source_config decision rest store
        ((webhook.name, true) :: r.1, r.2)
    else
      processLoop env source_config decision rest store

/-- Embedding of `AlertingPipeline.process`. -/
def process (env : PipelineEnv) (source_config : SourceConfig)
    (decision : Decision) (store : StoreState) :
    List (String × Bool) × StoreState :=
  processLoop env source_config decision env.config.webhooks store

end AlertingPipeline

/-! ## Retention purge (embedding of `SQLiteStateStore.purge_retention`)

The `snapshots` table is a list of rows with their primary-key `id` and the
columns the purge reads; the `deliveries` table is read only through
`sent_at`. `ORDER BY collected_at DESC` is embedded as a stable insertion
sort (SQLite leaves the relative order of equal keys unspecified; the sort
fixes one such order). -/

/-- A row of the `snapshots` table, restricted to the columns
`purge_retention` reads. -/
structure SnapshotRow where
  id : Nat
  source_name : String
  collected_at : Int
deriving DecidableEq

/-- A row of the `deliveries` table, restricted to the column
`purge_retention` reads. -/
structure DeliveryRow where
  id : Nat
  sent_at : Int
deriving DecidableEq

/-- The two tables `purge_retention` touches. -/
structure DbState where
  snapshots : List SnapshotRow
  deliveries : List DeliveryRow

/-- `SELECT DISTINCT source_name FROM snapshots`: each distinct source once,
in first-appearance order. -/
def distinct_sources (rows : List SnapshotRow) : List String :=
  rows.foldl (fun acc r => if r.source_name ∈ acc then acc else acc ++ [r.source_name]) []

/-- `SELECT id FROM snapshots WHERE source_name = ? ORDER BY collected_at
DESC`. -/
def idsByCollectedDesc (rows : List SnapshotRow) (source : String) : List Nat :=
  (List.insertionSort (fun a b => b.collected_at ≤ a.collected_at)
    (rows.filter fun r => decide (r.source_name = source))).map SnapshotRow.id

/-- One iteration of the per-source loop of `purge_retention`: protect the
`min_keep` most recent ids, delete the remaining rows older than the cutoff,
and add the number deleted to the running total. -/
def purge_source (cutoff : Int) (min_keep : Nat)
    (st : List SnapshotRow × Nat) (source : String) : List SnapshotRow × Nat :=
  let ids := idsByCollectedDesc st.1 source
  if ids.length ≤ min_keep then st
  else
    let keep_ids := ids.take min_keep
    let to_delete :=
      (st.1.filter fun r =>
        decide (r.source_name = source ∧ r.collected_at < cutoff ∧
          r.id ∉ keep_ids)).map SnapshotRow.id
    (st.1.filter fun r => decide (r.id ∉ to_delete), st.2 + to_delete.length)

/-- Embedding of `SQLiteStateStore.purge_retention`. `timedelta(days=days)`
is `days * 86400` seconds; the delivery deletion's `rowcount` is the number
of matching rows. -/
def purge_retention (db : DbState) (now : Int) (days : Nat) (min_keep : Nat) :
    DbState × Nat :=
  let cutoff : Int := now - days * 86400
  let st := (distinct_sources db.snapshots).foldl (purge_source cutoff min_keep)
    (db.snapshots, 0)
  let removed := db.deliveries.filter fun d => decide (d.sent_at < cutoff)
  ({ snapshots := st.1,
     deliveries := db.deliveries.filter fun d => decide (¬ d.sent_at < cutoff) },
   st.2 + removed.length)

/-! ## Theorems about the claims -/

/-- Claim C5: for every decision produced by the engine's status
classification, an empty reason list yields OK; the status is ANOMALY iff
some reason code is in the critical set; otherwise a reason code in the
warning set yields WARNING. -/
theorem claim_C5 (reasons : List Reason) :
    (reasons = [] → determine_status reasons = DecisionStatus.OK) ∧
    (determine_status reasons = DecisionStatus.ANOMALY ↔
      ∃ r ∈ reasons, r.code ∈ critical_codes) ∧
    ((¬ ∃ r ∈ reasons, r.code ∈ critical_codes) →
      (∃ r ∈ reasons, r.code ∈ warning_codes) →
      determine_status reasons = DecisionStatus.WARNING) := by
  unfold determine_status
  by_cases h : reasons = []
  · subst h
    simp
  · simp only [if_neg h]
    by_cases hc : ∃ r ∈ reasons, r.code ∈ critical_codes
    · have hcb : reasons.any (fun r => decide (r.code ∈ critical_codes)) = true := by
        simpa [List.any_eq_true] using hc
      simp [hcb, hc, h]
    · have hcb : reasons.any (fun r => decide (r.code ∈ critical_codes)) = false := by
        simpa [List.any_eq_false] using hc
      by_cases hw : ∃ r ∈ reasons, r.code ∈ warning_codes
      · have hwb : reasons.any (fun r => decide (r.code ∈ warning_codes)) = true := by
          simpa [List.any_eq_true] using hw
        simp [hcb, hwb, hc, h]
      · have hwb : reasons.any (fun r => decide (r.code ∈ warning_codes)) = false := by
          simpa [List.any_eq_false] using hw
        refine ⟨fun hx => absurd hx h, by simp [hcb, hwb, hc], fun _ hx => absurd hx ?_⟩
        push_neg
        intro r hr
        simpa using List.any_eq_false.mp hwb r hr

/-- Witness for claim C5 at a concrete reason list. -/
theorem claim_C5_witness :
    determine_status [{ code := "STALE_DATA", message := "m" }] =
      DecisionStatus.ANOMALY :=
  (claim_C5 [{ code := "STALE_DATA", message := "m" }]).2.1.mpr
    ⟨{ code := "STALE_DATA", message := "m" }, by simp, by simp [critical_codes]⟩

/-- Claim C6: with a baseline of at least 3 snapshots, a positive median and
zero standard deviation, a current row count of 0 triggers ZERO_VOLUME and
not VOLUME_LOW. -/
theorem claim_C6 (current : DataSnapshot) (config : SourceConfig)
    (baseline : BaselineSummary) (median : ℚ)
    (hrc : current.row_count = some 0)
    (hcount : 3 ≤ baseline.snapshot_count)
    (hmed : baseline.row_count_median = some median)
    (hpos : 0 < median)
    (hstd : baseline.row_count_stddev = some 0) :
    "ZERO_VOLUME" ∈ (check_volume current config baseline).map Reason.code ∧
    "VOLUME_LOW" ∉ (check_volume current config baseline).map Reason.code := by
  unfold check_volume
  rw [hrc, hmed, hstd]
  simp only [if_pos hcount, if_neg (lt_irrefl (0 : ℝ)), hpos, and_true,
    eq_self_iff_true, ite_true]
  rcases hmin : config.volume.min_row_count with _ | m <;> simp [hmin]

/-- A current snapshot observing zero rows. -/
def c6Current : DataSnapshot :=
  { source_name := "s", collected_at := 100,
    collect_status := CollectStatus.SUCCESS,
    metrics := { row_count := some 0 } }

/-- A flat baseline: five snapshots, constant median 40, zero stddev. -/
def c6Baseline : BaselineSummary :=
  { snapshot_count := 5, row_count_median := some 40,
    row_count_min := some 40, row_count_max := some 40,
    row_count_stddev := some 0, expected_interval_seconds := some 60,
    oldest_snapshot_at := some 0, newest_snapshot_at := some 90 }

/-- Witness for claim C6 at a concrete snapshot, config and baseline. -/
theorem claim_C6_witness :
    "ZERO_VOLUME" ∈
      (check_volume c6Current { name := "s" } c6Baseline).map Reason.code ∧
    "VOLUME_LOW" ∉
      (check_volume c6Current { name := "s" } c6Baseline).map Reason.code :=
  claim_C6 _ _ _ 40 rfl (by norm_num [c6Baseline]) rfl (by norm_num) rfl

/-- Claim C10: a first HTTP response whose status is outside the retryable
set makes `deliver` return immediately with success, that status and a
single attempt (no sleeps), whatever the status class. -/
theorem claim_C10 (outcome : Nat → HttpOutcome) (st : Nat)
    (h1 : outcome 1 = HttpOutcome.response st)
    (h2 : st ∉ RETRYABLE_STATUS_CODES) :
    deliver outcome false =
      ({ success := true, status_code := some st, error := none,
         latency_ms := none, attempts := 1 }, []) := by
  unfold deliver deliverLoop
  rw [if_neg (by simp)]
  show (match outcome 1 with
    | _ => _ : DeliveryResult × List Nat) = _
  rw [h1]
  by_cases hlt : st < 400
  · simp [hlt]
  · simp [hlt, h2]

/-- The retryable delivery conditions named by the specification: a connect
error, a timeout, or a response status in the retryable set. -/
def RetryableCondition : HttpOutcome → Prop
  | .response st => st ∈ RETRYABLE_STATUS_CODES
  | .timeout => True
  | .connectError _ => True
  | .exceptionRaised _ => False

lemma retryable_not_lt_400 (st : Nat) (h : st ∈ RETRYABLE_STATUS_CODES) :
    ¬ st < 400 := by
  simp only [RETRYABLE_STATUS_CODES, List.mem_cons, List.not_mem_nil, or_false] at h
  rcases h with rfl | rfl | rfl | rfl | rfl | rfl <;> norm_num

/-- One loop iteration of `deliver` on a retryable outcome: it records the
error text and status, optionally sleeps, and continues. -/
lemma deliverLoop_retry_step (outcome : Nat → HttpOutcome) (attempt delay : Nat)
    (rest : List (Nat × Nat)) (le : Option String) (ls : Option Nat) (a : Nat)
    (h : RetryableCondition (outcome attempt)) :
    deliverLoop outcome ((attempt, delay) :: rest) le ls a =
      ((deliverLoop outcome rest (some (lastErrorText (outcome attempt)))
          (lastStatusUpd ls (outcome attempt)) attempt).1,
        (if 0 < delay ∧ attempt < RETRY_DELAYS.length + 1 then [delay] else []) ++
        (deliverLoop outcome rest (some (lastErrorText (outcome attempt)))
          (lastStatusUpd ls (outcome attempt)) attempt).2) := by
  cases ho : outcome attempt with
  | response st =>
    rw [ho] at h
    simp only [RetryableCondition] at h
    have h400 : ¬ st < 400 := retryable_not_lt_400 st h
    simp only [deliverLoop, ho]
    rw [if_neg h400, if_pos h]
    simp [lastErrorText, lastStatusUpd]
  | timeout =>
    simp [deliverLoop, ho, lastErrorText, lastStatusUpd]
  | connectError m =>
    simp [deliverLoop, ho, lastErrorText, lastStatusUpd]
  | exceptionRaised m =>
    rw [ho] at h
    exact absurd h (by simp [RetryableCondition])

/-- Claim C7: a first HTTP 400 returns success with status 400 after one
attempt; four retryable attempts sleep 1 s, 5 s and 15 s between attempts
and end in failure with the last error and status and `attempts = 4`. -/
theorem claim_C7 (outcome : Nat → HttpOutcome) :
    (outcome 1 = HttpOutcome.response 400 →
      deliver outcome false =
        ({ success := true, status_code := some 400, error := none,
           latency_ms := none, attempts := 1 }, [])) ∧
    ((∀ i, 1 ≤ i → i ≤ 4 → RetryableCondition (outcome i)) →
      deliver outcome false =
        ({ success := false,
           status_code := lastStatusOf [outcome 1, outcome 2, outcome 3, outcome 4],
           error := some (lastErrorText (outcome 4)),
           latency_ms := none, attempts := 4 }, [1, 5, 15])) := by
  have e : ((List.range' 1 (RETRY_DELAYS.length + 1)).zip (RETRY_DELAYS ++ [0])) =
      [(1, 1), (2, 5), (3, 15), (4, 0)] := rfl
  constructor
  · intro h1
    unfold deliver deliverLoop
    rw [if_neg (by simp), e]
    show (match outcome 1 with | _ => _ : DeliveryResult × List Nat) = _
    rw [h1]
    norm_num [RETRYABLE_STATUS_CODES]
  · intro h
    unfold deliver
    rw [if_neg (by simp), e]
    rw [deliverLoop_retry_step outcome 1 1 _ none none 0 (h 1 (by norm_num) (by norm_num))]
    rw [deliverLoop_retry_step outcome 2 5 _ _ _ 1 (h 2 (by norm_num) (by norm_num))]
    rw [deliverLoop_retry_step outcome 3 15 _ _ _ 2 (h 3 (by norm_num) (by norm_num))]
    rw [deliverLoop_retry_step outcome 4 0 _ _ _ 3 (h 4 (by norm_num) (by norm_num))]
    simp [deliverLoop, lastStatusOf, RETRY_DELAYS]

/-- Witness for claim C7: every attempt answers HTTP 500. -/
theorem claim_C7_witness :
    (∀ i, 1 ≤ i → i ≤ 4 →
      RetryableCondition ((fun _ => HttpOutcome.response 500) i)) ∧
    deliver (fun _ => HttpOutcome.response 500) false =
      ({ success := false, status_code := some 500, error := some "HTTP 500",
         latency_ms := none, attempts := 4 }, [1, 5, 15]) := by
  have hr : ∀ i, 1 ≤ i → i ≤ 4 →
      RetryableCondition ((fun _ => HttpOutcome.response 500) i) := by
    intro i _ _
    simp [RetryableCondition, RETRYABLE_STATUS_CODES]
  refine ⟨hr, ?_⟩
  have h := (claim_C7 (fun _ => HttpOutcome.response 500)).2 hr
  simpa [lastStatusOf, lastStatusUpd, lastErrorText] using h

/-- Witness for claim C10 at status 501, a non-retryable 5xx. -/
theorem claim_C10_witness :
    ((fun _ => HttpOutcome.response 501) 1 = HttpOutcome.response 501) ∧
    501 ∉ RETRYABLE_STATUS_CODES ∧
    deliver (fun _ => HttpOutcome.response 501) false =
      ({ success := true, status_code := some 501, error := none,
         latency_ms := none, attempts := 1 }, []) :=
  ⟨rfl, by decide, claim_C10 _ 501 rfl (by decide)⟩

/-- Claim C3: the pipeline's dispatch gate fires iff the cooldown has
passed (or is unset) and the decision differs from the notified state in
status or reason hash; an active cooldown blocks dispatch even for a
different reason hash; a synthesized UNKNOWN state passes the gate for any
engine decision (engine decisions are never UNKNOWN). The pipeline gate
agrees with `AlertState.should_alert`. -/
lemma shouldAlert_eq_of_none (decision : Decision) (state : AlertState)
    (now : Int) (h : state.cooldown_until = none) :
    AlertingPipeline._should_alert decision state now =
      if decision.status = state.notified_status ∧
          decision.reason_hash = state.notified_reason_hash then false
      else true := by
  unfold AlertingPipeline._should_alert
  rw [h]

lemma shouldAlert_eq_of_some (decision : Decision) (state : AlertState)
    (now c : Int) (h : state.cooldown_until = some c) :
    AlertingPipeline._should_alert decision state now =
      if now < c then false
      else
        if decision.status = state.notified_status ∧
            decision.reason_hash = state.notified_reason_hash then false
        else true := by
  unfold AlertingPipeline._should_alert
  rw [h]

lemma modelShouldAlert_eq_of_none (decision : Decision) (state : AlertState)
    (now : Int) (h : state.cooldown_until = none) :
    state.should_alert decision now =
      !(decision.status = state.notified_status &&
        decision.reason_hash = state.notified_reason_hash) := by
  unfold AlertState.should_alert
  rw [h]

lemma modelShouldAlert_eq_of_some (decision : Decision) (state : AlertState)
    (now c : Int) (h : state.cooldown_until = some c) :
    state.should_alert decision now =
      if now < c then false
      else
        !(decision.status = state.notified_status &&
          decision.reason_hash = state.notified_reason_hash) := by
  unfold AlertState.should_alert
  rw [h]

theorem claim_C3 (decision : Decision) (state : AlertState) (now : Int) :
    (AlertingPipeline._should_alert decision state now = true ↔
      ((∀ c, state.cooldown_until = some c → c ≤ now) ∧
        (decision.status ≠ state.notified_status ∨
          decision.reason_hash ≠ state.notified_reason_hash))) ∧
    (∀ c, state.cooldown_until = some c → now < c →
      AlertingPipeline._should_alert decision state now = false) ∧
    (∀ source target synth_now, decision.status ≠ DecisionStatus.UNKNOWN →
      AlertingPipeline._should_alert decision
        (AlertingPipeline.syntheticState synth_now source target) now = true) ∧
    AlertingPipeline._should_alert decision state now =
      state.should_alert decision now := by
  refine ⟨?_, ?_, ?_, ?_⟩
  · rcases hcd : state.cooldown_until with _ | c
    · rw [shouldAlert_eq_of_none decision state now hcd]
      generalize decision.reason_hash = rh
      split_ifs with hsame
      · simp only [false_iff]
        intro hcontra
        rcases hcontra.2 with hne | hne
        · exact hne hsame.1
        · exact hne hsame.2
      · simp only [true_iff]
        refine ⟨?_, not_and_or.mp hsame⟩
        intro c hc
        exact hc.elim
    · rw [shouldAlert_eq_of_some decision state now c hcd]
      generalize decision.reason_hash = rh
      by_cases hlt : now < c
      · rw [if_pos hlt]
        simp only [Bool.false_eq_true, false_iff]
        intro hcontra
        exact absurd (hcontra.1 c rfl) (by omega)
      · rw [if_neg hlt]
        split_ifs with hsame
        · simp only [false_iff]
          intro hcontra
          rcases hcontra.2 with hne | hne
          · exact hne hsame.1
          · exact hne hsame.2
        · simp only [true_iff]
          refine ⟨?_, not_and_or.mp hsame⟩
          intro c' hc'
          have hcc : c = c' := Option.some.inj hc'
          omega
  · intro c hc hlt
    rw [shouldAlert_eq_of_some decision state now c hc, if_pos hlt]
  · intro source target synth_now hq
    rw [shouldAlert_eq_of_none decision _ now rfl]
    exact if_neg fun hcontra => hq hcontra.1
  · rcases hcd : state.cooldown_until with _ | c
    · rw [shouldAlert_eq_of_none decision state now hcd,
        modelShouldAlert_eq_of_none decision state now hcd]
      generalize decision.reason_hash = rh
      split_ifs with hsame
      · simp [hsame.1, hsame.2]
      · rcases not_and_or.mp hsame with hne | hne <;> simp [hne]
    · rw [shouldAlert_eq_of_some decision state now c hcd,
        modelShouldAlert_eq_of_some decision state now c hcd]
      generalize decision.reason_hash = rh
      by_cases hlt : now < c
      · rw [if_pos hlt, if_pos hlt]
      · rw [if_neg hlt, if_neg hlt]
        split_ifs with hsame
        · simp [hsame.1, hsame.2]
        · rcases not_and_or.mp hsame with hne | hne <;> simp [hne]

/-- A concrete anomaly decision, used by the claim C3 witness. -/
def c3Decision : Decision :=
  { status := DecisionStatus.ANOMALY,
    reasons := [{ code := "STALE_DATA", message := "m" }],
    metrics := {}, baseline_summary := none }

/-- A concrete prior alert state whose cooldown expired at 5, used by the
claim C3 witness. -/
def c3State : AlertState :=
  { source_name := "s", target_name := "t",
    notified_status := DecisionStatus.OK, notified_reason_hash := "",
    last_change_at := 0, last_sent_at := none, cooldown_until := some 5 }

/-- Witness for claim C3 at a concrete decision and alert state. -/
theorem claim_C3_witness :
    AlertingPipeline._should_alert c3Decision c3State 10 = true :=
  (claim_C3 c3Decision c3State 10).1.mpr
    ⟨fun c hc => by cases hc; omega, Or.inl (by decide)⟩

/-- A decision with a single VOLUME_LOW reason, used by claim C9. -/
def lowVolumeDecision : Decision :=
  { status := DecisionStatus.OK,
    reasons := [{ code := "VOLUME_LOW", message := "m" }],
    metrics := {}, baseline_summary := none }

/-- `lowVolumeDecision` with its reason code (only) changed. -/
def highVolumeDecision : Decision :=
  { status := DecisionStatus.OK,
    reasons := [{ code := "VOLUME_HIGH", message := "m" }],
    metrics := {}, baseline_summary := none }

/-- Claim C9: the reason hash is a function of the status and the sorted
reason codes alone (message texts are excluded), and some pair of decisions
agreeing on status and messages but not on codes hashes differently. -/
theorem claim_C9 (d1 d2 : Decision)
    (hstatus : d1.status = d2.status)
    (hcodes : sortedStrings (d1.reasons.map Reason.code) =
      sortedStrings (d2.reasons.map Reason.code)) :
    d1.reason_hash = d2.reason_hash ∧
    (∃ e1 e2 : Decision, e1.status = e2.status ∧
      e1.reasons.map Reason.message = e2.reasons.map Reason.message ∧
      e1.reasons.map Reason.code ≠ e2.reasons.map Reason.code ∧
      e1.reason_hash ≠ e2.reason_hash) := by
  constructor
  · unfold Decision.reason_hash
    rw [hstatus, hcodes]
  · exact ⟨lowVolumeDecision, highVolumeDecision, rfl, rfl, by decide,
      by set_option maxRecDepth 8192 in decide⟩

/-- Two WARNING decisions with the same codes but different messages and
reason order, used by the claim C9 witness. -/
def gapThenNoNewData : Decision :=
  { status := DecisionStatus.WARNING,
    reasons := [{ code := "NO_NEW_DATA", message := "a" },
                { code := "COLLECTION_GAP", message := "b" }],
    metrics := {}, baseline_summary := none }

/-- See `gapThenNoNewData`: reordered reasons, reworded messages. -/
def noNewDataThenGap : Decision :=
  { status := DecisionStatus.WARNING,
    reasons := [{ code := "COLLECTION_GAP", message := "c" },
                { code := "NO_NEW_DATA", message := "d" }],
    metrics := {}, baseline_summary := none }

/-- Witness for claim C9: same codes, different messages and order hash
identically. -/
theorem claim_C9_witness :
    gapThenNoNewData.reason_hash = noNewDataThenGap.reason_hash :=
  (claim_C9 gapThenNoNewData noNewDataThenGap rfl (by decide)).1

/-- A one-snapshot history carrying no `row_count` metric. -/
def noRowCountHistory : List DataSnapshot :=
  [{ source_name := "s", collected_at := 0,
     collect_status := CollectStatus.SUCCESS, metrics := {} }]

/-- Counterexample for claim C2: a non-empty history with zero `row_count`
values present gets baseline stddev `0.0` from the code, not null. -/
theorem claim_C2_counterexample :
    (calculate_baseline noRowCountHistory).row_count_stddev = some 0 ∧
    (calculate_baseline noRowCountHistory).row_count_stddev ≠ none := by
  have h : (calculate_baseline noRowCountHistory).row_count_stddev = some 0 := by
    unfold calculate_baseline noRowCountHistory
    rw [if_neg (by simp)]
    simp [rowCountsOf, DataSnapshot.row_count]
  exact ⟨h, by rw [h]; simp⟩

/-- Claim C2 as amended: for a non-empty history the baseline stddev is the
sample standard deviation when at least two row counts are present and
exactly `0.0` otherwise — including the case of zero present row counts,
for which the claim said null. -/
theorem claim_C2_amended (history : List DataSnapshot) (hne : history ≠ []) :
    (2 ≤ (rowCountsOf history).length →
      (calculate_baseline history).row_count_stddev =
        some (sampleStdDev (rowCountsOf history))) ∧
    ((rowCountsOf history).length ≤ 1 →
      (calculate_baseline history).row_count_stddev = some 0) := by
  unfold calculate_baseline
  rw [if_neg hne]
  constructor
  · intro h2
    simp only
    rw [if_pos (by omega)]
  · intro h1
    simp only
    rw [if_neg (by omega)]

/-- A history of two snapshots, both with a `row_count`. -/
def twoRowCountHistory : List DataSnapshot :=
  [{ source_name := "s", collected_at := 0,
     collect_status := CollectStatus.SUCCESS,
     metrics := { row_count := some 10 } },
   { source_name := "s", collected_at := 60,
     collect_status := CollectStatus.SUCCESS,
     metrics := { row_count := some 14 } }]

/-- Witness for claim C2 as amended, on a two-snapshot history. -/
theorem claim_C2_amended_witness :
    (twoRowCountHistory ≠ []) ∧
    (2 ≤ (rowCountsOf twoRowCountHistory).length →
      (calculate_baseline twoRowCountHistory).row_count_stddev =
        some (sampleStdDev (rowCountsOf twoRowCountHistory))) :=
  ⟨by decide, (claim_C2_amended _ (by decide)).1⟩

/-! ### Alert-state lookup lemmas for the pipeline claims -/

lemma find?_append_of_forall_false {α : Type} (p : α → Bool) (l1 l2 : List α)
    (h : ∀ a ∈ l1, p a = false) : (l1 ++ l2).find? p = l2.find? p := by
  induction l1 with
  | nil => simp
  | cons a l ih =>
    have ha := h a (by simp)
    simp only [List.cons_append, List.find?, ha]
    exact ih fun b hb => h b (by simp [hb])

/-- After `set_alert_state`, looking up the written key returns the written
state. -/
lemma get_set_alert_state_same (store : StoreState) (state : AlertState) :
    get_alert_state (set_alert_state store state)
      state.source_name state.target_name = some state := by
  unfold get_alert_state set_alert_state
  simp only
  rw [find?_append_of_forall_false]
  · simp
  · intro a ha
    rw [List.mem_filter] at ha
    simp only [decide_eq_false_iff_not]
    exact of_decide_eq_true ha.2

/-- After `set_alert_state`, lookups of any other key are unchanged. -/
lemma get_set_alert_state_other (store : StoreState) (state : AlertState)
    (s t : String) (h : ¬(s = state.source_name ∧ t = state.target_name)) :
    get_alert_state (set_alert_state store state) s t =
      get_alert_state store s t := by
  have hpstate : (decide (state.source_name = s ∧ state.target_name = t)) = false := by
    simp only [decide_eq_false_iff_not]
    intro hcontra
    exact h ⟨hcontra.1.symm, hcontra.2.symm⟩
  unfold get_alert_state set_alert_state
  simp only
  induction store.alert_states with
  | nil =>
    simp [List.find?, hpstate]
  | cons a l ih =>
    by_cases hq : a.source_name = state.source_name ∧ a.target_name = state.target_name
    · have hpa : (decide (a.source_name = s ∧ a.target_name = t)) = false := by
        simp only [decide_eq_false_iff_not]
        intro hcontra
        exact h ⟨hcontra.1.symm.trans hq.1, hcontra.2.symm.trans hq.2⟩
      rw [List.filter_cons,
        if_neg (by rw [decide_eq_true_eq]; exact not_not_intro hq)]
      rw [List.find?_cons_of_neg _ (by rw [decide_eq_true_eq]; exact of_decide_eq_false hpa)]
      exact ih
    · rw [List.filter_cons, if_pos (by rw [decide_eq_true_eq]; exact hq)]
      by_cases hpa : a.source_name = s ∧ a.target_name = t
      · rw [List.cons_append,
          List.find?_cons_of_pos _ (by rw [decide_eq_true_eq]; exact hpa),
          List.find?_cons_of_pos _ (by rw [decide_eq_true_eq]; exact hpa)]
      · rw [List.cons_append,
          List.find?_cons_of_neg _ (by rw [decide_eq_true_eq]; exact hpa),
          List.find?_cons_of_neg _ (by rw [decide_eq_true_eq]; exact hpa)]
        exact ih

/-- Claim C4: `_send_alert` (not dry-run) returns the delivery's success
flag and always logs the delivery; on failure the alert-state table is
untouched; on success the `(source, target)` alert state is replaced by the
new state (fresh status, hash, timestamps and cooldown) and all other keys
are untouched. -/
theorem claim_C4 (env : PipelineEnv) (source_config : SourceConfig)
    (decision : Decision) (event_type : EventType) (webhook : WebhookConfig)
    (store : StoreState) (hdry : env.dry_run = false) :
    (AlertingPipeline._send_alert env source_config decision event_type
        webhook store).1 =
      (env.deliver_result (AlertingPipeline.resolvedWebhook env webhook)).success ∧
    (AlertingPipeline._send_alert env source_config decision event_type
        webhook store).2.deliveries =
      store.deliveries ++ [AlertingPipeline.sendLogEntry env source_config event_type webhook] ∧
    ((env.deliver_result (AlertingPipeline.resolvedWebhook env webhook)).success = false →
      (AlertingPipeline._send_alert env source_config decision event_type
          webhook store).2.alert_states = store.alert_states) ∧
    ((env.deliver_result (AlertingPipeline.resolvedWebhook env webhook)).success = true →
      get_alert_state
          (AlertingPipeline._send_alert env source_config decision event_type
            webhook store).2 source_config.name webhook.name =
        some (AlertingPipeline.newAlertState env source_config decision webhook) ∧
      ∀ s t, ¬(s = source_config.name ∧ t = webhook.name) →
        get_alert_state
            (AlertingPipeline._send_alert env source_config decision event_type
              webhook store).2 s t =
          get_alert_state store s t) := by
  unfold AlertingPipeline._send_alert
  rw [if_neg (by rw [hdry]; exact Bool.false_ne_true)]
  simp only
  by_cases hs : (env.deliver_result (AlertingPipeline.resolvedWebhook env webhook)).success = true
  · rw [if_pos hs]
    refine ⟨rfl, ?_, ?_, ?_⟩
    · unfold set_alert_state log_delivery
      simp
    · intro hfalse
      rw [hs] at hfalse
      cases hfalse
    · intro _
      constructor
      · have h1 := get_set_alert_state_same
          (log_delivery store (AlertingPipeline.sendLogEntry env source_config event_type webhook))
          (AlertingPipeline.newAlertState env source_config decision webhook)
        simpa [AlertingPipeline.newAlertState] using h1
      · intro s t hst
        have h2 := get_set_alert_state_other
          (log_delivery store (AlertingPipeline.sendLogEntry env source_config event_type webhook))
          (AlertingPipeline.newAlertState env source_config decision webhook) s t
          (by simpa [AlertingPipeline.newAlertState] using hst)
        rw [h2]
        unfold get_alert_state log_delivery
        simp
  · rw [if_neg hs]
    have hs' : (env.deliver_result (AlertingPipeline.resolvedWebhook env webhook)).success = false :=
      Bool.eq_false_iff.mpr hs
    refine ⟨rfl, ?_, ?_, ?_⟩
    · unfold log_delivery
      simp
    · intro _
      unfold log_delivery
      simp
    · intro htrue
      exact absurd htrue hs

/-- A concrete pipeline environment whose delivery oracle fails every POST,
used by the claim C4 witness. -/
def failingEnv : PipelineEnv :=
  { config := { cooldown_minutes := 60,
                webhooks := [{ name := "wh", url := "http://x" }] },
    agent_id := "agent", dry_run := false, now := 1000,
    deliver_result := fun _ =>
      { success := false, status_code := some 503,
        error := some "HTTP 503", latency_ms := some 21, attempts := 4 },
    resolve_env := fun s => s,
    canonical_body := fun _ _ => "body" }

/-- Witness for claim C4, on `failingEnv`: delivery fails, the alert state
is untouched and the failure is logged. -/
theorem claim_C4_witness :
    (failingEnv.dry_run = false) ∧
    ((AlertingPipeline._send_alert failingEnv { name := "src" }
        { status := DecisionStatus.ANOMALY, reasons := [], metrics := {},
          baseline_summary := none }
        EventType.ANOMALY { name := "wh", url := "http://x" }
        { alert_states := [], deliveries := [] }).2.deliveries =
      [] ++ [AlertingPipeline.sendLogEntry failingEnv { name := "src" } EventType.ANOMALY
        { name := "wh", url := "http://x" }]) :=
  ⟨rfl,
    (claim_C4 failingEnv { name := "src" }
      { status := DecisionStatus.ANOMALY, reasons := [], metrics := {},
        baseline_summary := none }
      EventType.ANOMALY { name := "wh", url := "http://x" }
      { alert_states := [], deliveries := [] } rfl).2.1⟩

/-- `_send_alert` for one target leaves alert states of other target names
unchanged. -/
lemma get_alert_state_send_alert_other (env : PipelineEnv)
    (sc : SourceConfig) (d : Decision) (et : EventType) (w : WebhookConfig)
    (store : StoreState) (s n : String) (hn : n ≠ w.name) :
    get_alert_state
        (AlertingPipeline._send_alert env sc d et w store).2 s n =
      get_alert_state store s n := by
  unfold AlertingPipeline._send_alert
  by_cases hdry : env.dry_run = true
  · rw [if_pos hdry]
  · rw [if_neg hdry]
    simp only
    by_cases hs : (env.deliver_result (AlertingPipeline.resolvedWebhook env w)).success = true
    · rw [if_pos hs]
      rw [get_set_alert_state_other _ _ s n
        (by simp only [AlertingPipeline.newAlertState]; exact fun hc => hn hc.2)]
      unfold get_alert_state log_delivery
      rfl
    · rw [if_neg hs]
      unfold get_alert_state log_delivery
      rfl

/-- If no webhook named `n` passes the event filter, the result mapping of
the webhook loop has no entry for `n`. -/
lemma processLoop_lookup_eq_none (env : PipelineEnv) (sc : SourceConfig)
    (d : Decision) (n : String) :
    ∀ (ws : List WebhookConfig) (store : StoreState),
      (∀ w ∈ ws, w.name = n →
        (AlertingPipeline._get_event_type d).value ∉ w.events) →
      List.lookup n (AlertingPipeline.processLoop env sc d ws store).1 = none := by
  intro ws
  induction ws with
  | nil =>
    intro store _
    simp [AlertingPipeline.processLoop]
  | cons w ws ih =>
    intro store h
    simp only [AlertingPipeline.processLoop]
    by_cases hf : AlertingPipeline._should_process_event w
        (AlertingPipeline._get_event_type d) = true
    · have hne : n ≠ w.name := by
        intro hcontra
        have := h w (by simp) hcontra.symm
        unfold AlertingPipeline._should_process_event at hf
        exact this (of_decide_eq_true hf)
      rw [if_pos hf]
      by_cases hsa : AlertingPipeline._should_alert d
          ((get_alert_state store sc.name w.name).getD
            (AlertingPipeline.syntheticState env.now sc.name w.name))
          env.now = true
      · rw [if_pos hsa]
        simp only [List.lookup, beq_eq_false_iff_ne.mpr hne]
        exact ih _ fun w' hw' => h w' (by simp [hw'])
      · rw [if_neg hsa]
        simp only [List.lookup, beq_eq_false_iff_ne.mpr hne]
        exact ih _ fun w' hw' => h w' (by simp [hw'])
    · rw [if_neg hf]
      exact ih _ fun w' hw' => h w' (by simp [hw'])

/-- With pairwise-distinct webhook names, a subscribed webhook whose dispatch
gate (against the initial store) says no gets the entry `true`. -/
lemma processLoop_lookup_eq_some_true (env : PipelineEnv) (sc : SourceConfig)
    (d : Decision) (w : WebhookConfig) :
    ∀ (ws : List WebhookConfig) (store : StoreState),
      (ws.map WebhookConfig.name).Nodup → w ∈ ws →
      (AlertingPipeline._get_event_type d).value ∈ w.events →
      AlertingPipeline._should_alert d
        ((get_alert_state store sc.name w.name).getD
          (AlertingPipeline.syntheticState env.now sc.name w.name))
        env.now = false →
      List.lookup w.name (AlertingPipeline.processLoop env sc d ws store).1 =
        some true := by
  intro ws
  induction ws with
  | nil =>
    intro store _ hmem
    cases hmem
  | cons w' ws ih =>
    intro store hnodup hmem hf hsa
    rw [List.map_cons] at hnodup
    rcases List.mem_cons.mp hmem with rfl | hmem'
    · simp only [AlertingPipeline.processLoop]
      rw [if_pos (by unfold AlertingPipeline._should_process_event; exact decide_eq_true hf)]
      rw [if_neg (by rw [hsa]; exact Bool.false_ne_true)]
      simp [List.lookup]
    · have hname : w.name ≠ w'.name := by
        intro hcontra
        have hw'notin := (List.nodup_cons.mp hnodup).1
        exact hw'notin (hcontra ▸ List.mem_map_of_mem WebhookConfig.name hmem')
      have hnodup' : (ws.map WebhookConfig.name).Nodup :=
        (List.nodup_cons.mp hnodup).2
      simp only [AlertingPipeline.processLoop]
      by_cases hf' : AlertingPipeline._should_process_event w'
          (AlertingPipeline._get_event_type d) = true
      · rw [if_pos hf']
        by_cases hsa' : AlertingPipeline._should_alert d
            ((get_alert_state store sc.name w'.name).getD
              (AlertingPipeline.syntheticState env.now sc.name w'.name))
            env.now = true
        · rw [if_pos hsa']
          simp only [List.lookup, beq_eq_false_iff_ne.mpr hname]
          refine ih _ hnodup' hmem' hf ?_
          rw [get_alert_state_send_alert_other env sc d _ w' store sc.name w.name hname]
          exact hsa
        · rw [if_neg hsa']
          simp only [List.lookup, beq_eq_false_iff_ne.mpr hname]
          exact ih _ hnodup' hmem' hf hsa
      · rw [if_neg hf']
        exact ih _ hnodup' hmem' hf hsa

/-- With pairwise-distinct webhook names, two configured webhooks with the
same name are the same webhook. -/
lemma webhook_eq_of_name_eq (ws : List WebhookConfig)
    (h : (ws.map WebhookConfig.name).Nodup) (a b : WebhookConfig)
    (ha : a ∈ ws) (hb : b ∈ ws) (hab : a.name = b.name) : a = b := by
  induction ws with
  | nil => cases ha
  | cons w ws ih =>
    rw [List.map_cons] at h
    have hw : w.name ∉ ws.map WebhookConfig.name :=
      (List.nodup_cons.mp h).1
    have h' := (List.nodup_cons.mp h).2
    rcases List.mem_cons.mp ha with rfl | ha'
    · rcases List.mem_cons.mp hb with rfl | hb'
      · rfl
      · exfalso
        apply hw
        rw [hab]
        exact List.mem_map_of_mem WebhookConfig.name hb'
    · rcases List.mem_cons.mp hb with rfl | hb'
      · exfalso
        apply hw
        rw [← hab]
        exact List.mem_map_of_mem WebhookConfig.name ha'
      · exact ih h' ha' hb'

/-- The webhook of the claim C1 counterexample: subscribed to anomalies
only. -/
def c1Webhook : WebhookConfig :=
  { name := "wh", url := "http://x", events := ["anomaly"] }

/-- The pipeline environment of the claim C1 counterexample. -/
def c1Env : PipelineEnv :=
  { config := { cooldown_minutes := 60, webhooks := [c1Webhook] },
    agent_id := "agent", dry_run := false, now := 0,
    deliver_result := fun _ => { success := true, status_code := some 200 },
    resolve_env := fun s => s,
    canonical_body := fun _ _ => "body" }

/-- An OK decision (event type `recovery`), filtered out by `c1Webhook`. -/
def c1Decision : Decision :=
  { status := DecisionStatus.OK, reasons := [], metrics := {},
    baseline_summary := none }

/-- Counterexample for claim C1: the configured webhook `wh` does not
subscribe to the decision's event type, and `process` returns a mapping with
no entry for it at all (the claim requires an entry `true`). -/
theorem claim_C1_counterexample :
    (c1Env.config.webhooks.map WebhookConfig.name = ["wh"]) ∧
    (AlertingPipeline.process c1Env { name := "src" } c1Decision
      { alert_states := [], deliveries := [] }).1 = [] ∧
    List.lookup "wh"
      (AlertingPipeline.process c1Env { name := "src" } c1Decision
        { alert_states := [], deliveries := [] }).1 = none :=
  ⟨rfl, rfl, rfl⟩

/-- Claim C1 as amended: the mapping returned by `process` has an entry only
for webhooks that pass the event filter — a filter-skipped webhook is absent
from the mapping, not `true` — while a webhook skipped by deduplication or
cooldown does appear with value `true`. -/
theorem claim_C1_amended (env : PipelineEnv) (source_config : SourceConfig)
    (decision : Decision) (store : StoreState) (webhook : WebhookConfig)
    (hnodup : (env.config.webhooks.map WebhookConfig.name).Nodup)
    (hmem : webhook ∈ env.config.webhooks) :
    ((AlertingPipeline._get_event_type decision).value ∉ webhook.events →
      List.lookup webhook.name
        (AlertingPipeline.process env source_config decision store).1 = none) ∧
    ((AlertingPipeline._get_event_type decision).value ∈ webhook.events →
      AlertingPipeline._should_alert decision
        ((get_alert_state store source_config.name webhook.name).getD
          (AlertingPipeline.syntheticState env.now source_config.name
            webhook.name))
        env.now = false →
      List.lookup webhook.name
        (AlertingPipeline.process env source_config decision store).1 =
        some true) := by
  constructor
  · intro hnot
    refine processLoop_lookup_eq_none env source_config decision webhook.name
      env.config.webhooks store fun w' hw' hname => ?_
    have hw'eq : w' = webhook :=
      webhook_eq_of_name_eq env.config.webhooks hnodup w' webhook hw' hmem hname
    rw [hw'eq]
    exact hnot
  · intro hf hsa
    exact processLoop_lookup_eq_some_true env source_config decision webhook
      env.config.webhooks store hnodup hmem hf hsa

/-- A webhook subscribed to anomalies, for the claim C1 amended witness. -/
def c1Webhook2 : WebhookConfig :=
  { name := "wh2", url := "http://x", events := ["anomaly"] }

/-- Environment with the single webhook `c1Webhook2`, clock at 0. -/
def c1Env2 : PipelineEnv :=
  { config := { cooldown_minutes := 60, webhooks := [c1Webhook2] },
    agent_id := "agent", dry_run := false, now := 0,
    deliver_result := fun _ => { success := true, status_code := some 200 },
    resolve_env := fun s => s,
    canonical_body := fun _ _ => "body" }

/-- An anomaly decision with no reasons. -/
def c1AnomalyDecision : Decision :=
  { status := DecisionStatus.ANOMALY, reasons := [], metrics := {},
    baseline_summary := none }

/-- An `(src, wh2)` alert state cooling down until 100. -/
def c1CoolState : AlertState :=
  { source_name := "src", target_name := "wh2",
    notified_status := DecisionStatus.ANOMALY, notified_reason_hash := "h",
    last_change_at := 0, last_sent_at := some 0, cooldown_until := some 100 }

/-- A store whose `(src, wh2)` alert state is cooling down until 100. -/
def c1CooldownStore : StoreState :=
  { alert_states := [c1CoolState], deliveries := [] }

/-- Witness for claim C1 as amended: a cooldown-skipped webhook gets entry
`true`. -/
theorem claim_C1_amended_witness :
    ((c1Env2.config.webhooks.map WebhookConfig.name).Nodup) ∧
    List.lookup c1Webhook2.name
      (AlertingPipeline.process c1Env2 { name := "src" } c1AnomalyDecision
        c1CooldownStore).1 = some true :=
  ⟨by decide,
    (claim_C1_amended c1Env2 { name := "src" } c1AnomalyDecision
        c1CooldownStore c1Webhook2 (by decide) (by decide)).2
      (by decide) (by decide)⟩

/-! ### List lemmas for the retention-purge claim -/

/-- Distinct images under `f` identify list elements. -/
lemma eq_of_map_nodup {α β : Type} (f : α → β) (l : List α)
    (h : (l.map f).Nodup) (a b : α) (ha : a ∈ l) (hb : b ∈ l)
    (hf : f a = f b) : a = b := by
  induction l with
  | nil => cases ha
  | cons x l ih =>
    rw [List.map_cons] at h
    have hx : f x ∉ l.map f := (List.nodup_cons.mp h).1
    have h' := (List.nodup_cons.mp h).2
    rcases List.mem_cons.mp ha with rfl | ha'
    · rcases List.mem_cons.mp hb with rfl | hb'
      · rfl
      · exact absurd (hf ▸ List.mem_map_of_mem f hb') hx
    · rcases List.mem_cons.mp hb with rfl | hb'
      · exact absurd (hf ▸ List.mem_map_of_mem f ha') hx
      · exact ih h' ha' hb'

/-- Filtering by the negation drops exactly the matching elements. -/
lemma length_filter_not {α : Type} (p : α → Bool) (l : List α) :
    (l.filter fun a => !(p a)).length = l.length - (l.filter p).length := by
  induction l with
  | nil => simp
  | cons a l ih =>
    have hle := List.length_filter_le p l
    by_cases hp : p a = true
    · rw [List.filter_cons, List.filter_cons, if_pos hp,
        if_neg (by simp [hp])]
      simp only [List.length_cons, ih]
      omega
    · have hp' : p a = false := Bool.eq_false_iff.mpr hp
      rw [List.filter_cons, List.filter_cons, if_pos (by simp [hp']),
        if_neg (by simp [hp'])]
      simp only [List.length_cons, ih]
      omega

/-- A pointwise-stronger filter keeps no more elements. -/
lemma filter_length_mono {α : Type} (p q : α → Bool) (l : List α)
    (h : ∀ a ∈ l, p a = true → q a = true) :
    (l.filter p).length ≤ (l.filter q).length := by
  induction l with
  | nil => simp
  | cons a l ih =>
    have ih' := ih fun b hb => h b (by simp [hb])
    by_cases hp : p a = true
    · rw [List.filter_cons, if_pos hp, List.filter_cons, if_pos (h a (by simp) hp)]
      simpa using ih'
    · rw [List.filter_cons, if_neg hp]
      by_cases hq : q a = true
      · rw [List.filter_cons, if_pos hq]
        exact le_trans ih' (by simp)
      · rw [List.filter_cons, if_neg hq]
        exact ih'

/-- With distinct images, exactly `min k |l|` elements have their image in
the first `k` images. -/
lemma length_filter_mem_take {α β : Type} [DecidableEq β] (f : α → β) :
    ∀ (l : List α) (k : Nat), (l.map f).Nodup →
      (l.filter fun a => decide (f a ∈ (l.map f).take k)).length = min k l.length := by
  intro l
  induction l with
  | nil => intro k _; simp
  | cons x l ih =>
    intro k h
    rw [List.map_cons] at h
    have hx : f x ∉ l.map f := (List.nodup_cons.mp h).1
    have h' := (List.nodup_cons.mp h).2
    match k with
    | 0 => simp
    | k + 1 =>
      rw [List.map_cons, List.take_succ_cons]
      rw [List.filter_cons, if_pos (by simp)]
      have hcongr : (l.filter fun a => decide (f a ∈ f x :: (l.map f).take k)) =
          (l.filter fun a => decide (f a ∈ (l.map f).take k)) := by
        apply List.filter_congr
        intro a ha
        simp only [List.mem_cons, decide_eq_decide]
        constructor
        · rintro (hfa | hfa)
          · exact absurd (hfa ▸ List.mem_map_of_mem f ha) hx
          · exact hfa
        · exact Or.inr
      rw [hcongr]
      simp only [List.length_cons, ih k h', Nat.min_def]
      split_ifs <;> omega

/-- The rows of one source, as the purge queries select them. -/
def srcFilter (s : String) (rows : List SnapshotRow) : List SnapshotRow :=
  rows.filter fun r => decide (r.source_name = s)

/-- The protected ids of a source: the `min_keep` most recent by
`collected_at`. -/
def protectedIds (rows : List SnapshotRow) (s : String) (k : Nat) : List Nat :=
  (idsByCollectedDesc rows s).take k

/-- Whether the purge keeps a row of the source, given its protected set. -/
def keepPred (cutoff : Int) (K : List Nat) (r : SnapshotRow) : Bool :=
  decide ¬(r.collected_at < cutoff ∧ r.id ∉ K)

lemma mem_foldl_distinct (rows : List SnapshotRow) :
    ∀ (acc : List String) (x : String),
      (x ∈ acc ∨ ∃ r ∈ rows, r.source_name = x) →
      x ∈ rows.foldl
        (fun acc r => if r.source_name ∈ acc then acc else acc ++ [r.source_name])
        acc := by
  induction rows with
  | nil =>
    intro acc x h
    rcases h with h | ⟨r, hr, _⟩
    · simpa using h
    · cases hr
  | cons r rows ih =>
    intro acc x h
    simp only [List.foldl_cons]
    apply ih
    rcases h with h | ⟨r', hr', hname⟩
    · left
      by_cases hc : r.source_name ∈ acc
      · rwa [if_pos hc]
      · rw [if_neg hc]
        exact List.mem_append_left _ h
    · rcases List.mem_cons.mp hr' with rfl | hr2
      · left
        by_cases hc : r'.source_name ∈ acc
        · rw [if_pos hc]
          exact hname ▸ hc
        · rw [if_neg hc]
          exact List.mem_append_right _ (by simp [hname])
      · exact Or.inr ⟨r', hr2, hname⟩

/-- Every source present in the table appears in `distinct_sources`. -/
lemma mem_distinct_sources (rows : List SnapshotRow) (r : SnapshotRow)
    (hr : r ∈ rows) : r.source_name ∈ distinct_sources rows :=
  mem_foldl_distinct rows [] _ (Or.inr ⟨r, hr, rfl⟩)

lemma foldl_distinct_nodup (rows : List SnapshotRow) :
    ∀ acc : List String, acc.Nodup →
      (rows.foldl
        (fun acc r => if r.source_name ∈ acc then acc else acc ++ [r.source_name])
        acc).Nodup := by
  induction rows with
  | nil => intro acc h; simpa using h
  | cons r rows ih =>
    intro acc h
    simp only [List.foldl_cons]
    apply ih
    by_cases hc : r.source_name ∈ acc
    · rwa [if_pos hc]
    · rw [if_neg hc]
      rw [List.nodup_append]
      exact ⟨h, List.nodup_singleton _, fun a ha hmem => by
        simp only [List.mem_singleton] at hmem
        exact hc (hmem ▸ ha)⟩

/-- `SELECT DISTINCT` yields each source once. -/
lemma distinct_sources_nodup (rows : List SnapshotRow) :
    (distinct_sources rows).Nodup :=
  foldl_distinct_nodup rows [] (by simp)

/-- A source absent from `distinct_sources` has no rows. -/
lemma srcFilter_eq_nil_of_not_mem (rows : List SnapshotRow) (s : String)
    (h : s ∉ distinct_sources rows) : srcFilter s rows = [] := by
  rw [srcFilter, List.filter_eq_nil_iff]
  intro r hr
  simp only [decide_eq_true_eq]
  intro hcontra
  exact h (hcontra ▸ mem_distinct_sources rows r hr)

/-- The per-source id enumeration depends only on that source's rows. -/
lemma idsByCollectedDesc_congr (rows1 rows2 : List SnapshotRow) (s : String)
    (h : srcFilter s rows1 = srcFilter s rows2) :
    idsByCollectedDesc rows1 s = idsByCollectedDesc rows2 s := by
  unfold idsByCollectedDesc
  unfold srcFilter at h
  rw [h]

/-- Every row of a source has its id in the source's id enumeration. -/
lemma mem_ids_of_mem_src (rows : List SnapshotRow) (s : String)
    (r : SnapshotRow) (hr : r ∈ srcFilter s rows) :
    r.id ∈ idsByCollectedDesc rows s := by
  unfold idsByCollectedDesc
  apply List.mem_map_of_mem
  exact (List.perm_insertionSort _ _).symm.mem_iff.mp hr

/-- Primary-key uniqueness carries over to any filtered row set. -/
lemma ids_nodup_filter (rows : List SnapshotRow) (p : SnapshotRow → Bool)
    (h : (rows.map SnapshotRow.id).Nodup) :
    ((rows.filter p).map SnapshotRow.id).Nodup :=
  ((List.filter_sublist rows (p := p)).map SnapshotRow.id).nodup h

/-- No row of another source carries an id scheduled for deletion. -/
lemma id_not_mem_delete_of_src_ne (rows : List SnapshotRow)
    (hids : (rows.map SnapshotRow.id).Nodup) (s : String) (cutoff : Int)
    (K : List Nat) (r : SnapshotRow) (hr : r ∈ rows) (hsrc : r.source_name ≠ s) :
    r.id ∉ (rows.filter fun x =>
      decide (x.source_name = s ∧ x.collected_at < cutoff ∧ x.id ∉ K)).map
        SnapshotRow.id := by
  intro hmem
  rcases List.mem_map.mp hmem with ⟨r', hr', hid⟩
  have hr'pair := List.mem_filter.mp hr'
  have : r' = r := eq_of_map_nodup SnapshotRow.id rows hids r' r hr'pair.1 hr hid
  subst this
  exact hsrc (of_decide_eq_true hr'pair.2).1

/-- A row's id is scheduled for deletion iff the row itself is old,
unprotected and of the purged source. -/
lemma mem_delete_iff (rows : List SnapshotRow)
    (hids : (rows.map SnapshotRow.id).Nodup) (s : String) (cutoff : Int)
    (K : List Nat) (r : SnapshotRow) (hr : r ∈ rows) :
    (r.id ∈ (rows.filter fun x =>
        decide (x.source_name = s ∧ x.collected_at < cutoff ∧ x.id ∉ K)).map
          SnapshotRow.id) ↔
      (r.source_name = s ∧ r.collected_at < cutoff ∧ r.id ∉ K) := by
  constructor
  · intro hmem
    rcases List.mem_map.mp hmem with ⟨r', hr', hid⟩
    have pair := List.mem_filter.mp hr'
    have heq : r' = r := eq_of_map_nodup SnapshotRow.id rows hids r' r pair.1 hr hid
    exact heq ▸ of_decide_eq_true pair.2
  · intro hq
    exact List.mem_map_of_mem _ (List.mem_filter.mpr ⟨hr, decide_eq_true hq⟩)

/-- One purge iteration leaves the rows of every other source unchanged. -/
lemma purge_source_src_other (cutoff : Int) (k : Nat)
    (st : List SnapshotRow × Nat) (s t : String) (hts : t ≠ s)
    (hids : (st.1.map SnapshotRow.id).Nodup) :
    srcFilter t (purge_source cutoff k st s).1 = srcFilter t st.1 := by
  simp only [purge_source]
  by_cases hskip : (idsByCollectedDesc st.1 s).length ≤ k
  · rw [if_pos hskip]
  · rw [if_neg hskip]
    simp only
    unfold srcFilter
    rw [List.filter_filter]
    apply List.filter_congr
    intro r hr
    by_cases hsrc : r.source_name = t
    · have hnot : r.id ∉ (st.1.filter fun x =>
          decide (x.source_name = s ∧ x.collected_at < cutoff ∧
            x.id ∉ (idsByCollectedDesc st.1 s).take k)).map SnapshotRow.id :=
        id_not_mem_delete_of_src_ne st.1 hids s cutoff _ r hr (hsrc ▸ hts)
      simp only [decide_eq_true hnot, decide_eq_true hsrc, Bool.true_and,
        Bool.and_true]
    · simp only [decide_eq_false hsrc, Bool.and_false, Bool.false_and]

/-- One purge iteration filters its own source's rows by exactly the keep
predicate. -/
lemma purge_source_src_own (cutoff : Int) (k : Nat)
    (st : List SnapshotRow × Nat) (s : String)
    (hids : (st.1.map SnapshotRow.id).Nodup) :
    srcFilter s (purge_source cutoff k st s).1 =
      (srcFilter s st.1).filter (keepPred cutoff (protectedIds st.1 s k)) := by
  simp only [purge_source]
  by_cases hskip : (idsByCollectedDesc st.1 s).length ≤ k
  · rw [if_pos hskip]
    have hK : protectedIds st.1 s k = idsByCollectedDesc st.1 s :=
      List.take_of_length_le hskip
    symm
    apply List.filter_eq_self.mpr
    intro r hr
    unfold keepPred
    rw [hK]
    apply decide_eq_true
    rintro ⟨_, hnot⟩
    exact hnot (mem_ids_of_mem_src st.1 s r hr)
  · rw [if_neg hskip]
    simp only
    unfold srcFilter keepPred protectedIds
    rw [List.filter_filter, List.filter_filter]
    apply List.filter_congr
    intro r hr
    by_cases hsrc : r.source_name = s
    · have hiff := mem_delete_iff st.1 hids s cutoff
        ((idsByCollectedDesc st.1 s).take k) r hr
      by_cases hd : r.collected_at < cutoff ∧
          r.id ∉ (idsByCollectedDesc st.1 s).take k
      · have hmem := hiff.mpr ⟨hsrc, hd⟩
        simp only [decide_eq_false (not_not_intro hmem),
          decide_eq_false (not_not_intro hd), Bool.and_false, Bool.false_and]
      · have hmem : r.id ∉ (st.1.filter fun x =>
            decide (x.source_name = s ∧ x.collected_at < cutoff ∧
              x.id ∉ (idsByCollectedDesc st.1 s).take k)).map SnapshotRow.id :=
          fun hc => hd (hiff.mp hc).2
        simp only [decide_eq_true hmem, decide_eq_true hd,
          decide_eq_true hsrc, Bool.true_and, Bool.and_true]
    · simp only [decide_eq_false hsrc, Bool.and_false, Bool.false_and]

/-- One purge iteration adds exactly the number of deleted rows to the
running count. -/
lemma purge_source_count (cutoff : Int) (k : Nat)
    (st : List SnapshotRow × Nat) (s : String)
    (hids : (st.1.map SnapshotRow.id).Nodup) :
    (purge_source cutoff k st s).2 + (purge_source cutoff k st s).1.length =
      st.2 + st.1.length := by
  simp only [purge_source]
  by_cases hskip : (idsByCollectedDesc st.1 s).length ≤ k
  · rw [if_pos hskip]
  · rw [if_neg hskip]
    simp only
    have hcongr : (st.1.filter fun r => decide (r.id ∉ (st.1.filter fun x =>
        decide (x.source_name = s ∧ x.collected_at < cutoff ∧
          x.id ∉ (idsByCollectedDesc st.1 s).take k)).map SnapshotRow.id)) =
        (st.1.filter fun r => !(decide (r.id ∈ (st.1.filter fun x =>
        decide (x.source_name = s ∧ x.collected_at < cutoff ∧
          x.id ∉ (idsByCollectedDesc st.1 s).take k)).map SnapshotRow.id))) := by
      apply List.filter_congr
      intro r _
      exact decide_not
    rw [hcongr, length_filter_not]
    have hsame : (st.1.filter fun r => decide (r.id ∈ (st.1.filter fun x =>
        decide (x.source_name = s ∧ x.collected_at < cutoff ∧
          x.id ∉ (idsByCollectedDesc st.1 s).take k)).map SnapshotRow.id)) =
        (st.1.filter fun x =>
          decide (x.source_name = s ∧ x.collected_at < cutoff ∧
            x.id ∉ (idsByCollectedDesc st.1 s).take k)) := by
      apply List.filter_congr
      intro r hr
      have hiff := mem_delete_iff st.1 hids s cutoff
        ((idsByCollectedDesc st.1 s).take k) r hr
      rw [decide_eq_decide]
      exact hiff
    rw [hsame, List.length_map]
    have hle : (st.1.filter fun x =>
        decide (x.source_name = s ∧ x.collected_at < cutoff ∧
          x.id ∉ (idsByCollectedDesc st.1 s).take k)).length ≤ st.1.length :=
      List.length_filter_le _ _
    omega

/-- One purge iteration preserves primary-key uniqueness. -/
lemma purge_source_ids_nodup (cutoff : Int) (k : Nat)
    (st : List SnapshotRow × Nat) (s : String)
    (hids : (st.1.map SnapshotRow.id).Nodup) :
    ((purge_source cutoff k st s).1.map SnapshotRow.id).Nodup := by
  simp only [purge_source]
  by_cases hskip : (idsByCollectedDesc st.1 s).length ≤ k
  · rw [if_pos hskip]
    exact hids
  · rw [if_neg hskip]
    exact ids_nodup_filter st.1 _ hids

/-- Primary-key uniqueness is preserved along the per-source loop. -/
lemma fold_ids_nodup (cutoff : Int) (k : Nat) :
    ∀ (L : List String) (st : List SnapshotRow × Nat),
      (st.1.map SnapshotRow.id).Nodup →
      ((L.foldl (purge_source cutoff k) st).1.map SnapshotRow.id).Nodup := by
  intro L
  induction L with
  | nil => intro st h; simpa using h
  | cons s L ih =>
    intro st h
    simp only [List.foldl_cons]
    exact ih _ (purge_source_ids_nodup cutoff k st s h)

/-- The per-source loop never touches rows of a source it does not visit. -/
lemma fold_src_not_mem (cutoff : Int) (k : Nat) :
    ∀ (L : List String) (st : List SnapshotRow × Nat) (s : String),
      s ∉ L → (st.1.map SnapshotRow.id).Nodup →
      srcFilter s (L.foldl (purge_source cutoff k) st).1 = srcFilter s st.1 := by
  intro L
  induction L with
  | nil => intro st s _ _; rfl
  | cons s0 L ih =>
    intro st s hnot hids
    simp only [List.foldl_cons]
    have hne : s ≠ s0 := fun hc => hnot (hc ▸ List.mem_cons_self s0 L)
    rw [ih _ s (fun hc => hnot (List.mem_cons_of_mem s0 hc))
      (purge_source_ids_nodup cutoff k st s0 hids)]
    exact purge_source_src_other cutoff k st s0 s hne hids

/-- Visiting a source once filters its rows by exactly the keep predicate
computed from the pre-purge table. -/
lemma fold_src_mem (cutoff : Int) (k : Nat) :
    ∀ (L : List String) (st : List SnapshotRow × Nat) (s : String),
      L.Nodup → s ∈ L → (st.1.map SnapshotRow.id).Nodup →
      srcFilter s (L.foldl (purge_source cutoff k) st).1 =
        (srcFilter s st.1).filter (keepPred cutoff (protectedIds st.1 s k)) := by
  intro L
  induction L with
  | nil => intro st s _ hmem; cases hmem
  | cons s0 L ih =>
    intro st s hnodup hmem hids
    simp only [List.foldl_cons]
    rcases List.mem_cons.mp hmem with rfl | hmem'
    · have hnotin : s ∉ L := (List.nodup_cons.mp hnodup).1
      rw [fold_src_not_mem cutoff k L _ s hnotin
        (purge_source_ids_nodup cutoff k st s hids)]
      exact purge_source_src_own cutoff k st s hids
    · have hne : s ≠ s0 := fun hc =>
        (List.nodup_cons.mp hnodup).1 (hc ▸ hmem')
      have hother := purge_source_src_other cutoff k st s0 s hne hids
      have hK : protectedIds (purge_source cutoff k st s0).1 s k =
          protectedIds st.1 s k := by
        unfold protectedIds
        rw [idsByCollectedDesc_congr _ st.1 s hother]
      rw [ih _ s (List.nodup_cons.mp hnodup).2 hmem'
        (purge_source_ids_nodup cutoff k st s0 hids), hother, hK]

/-- The count accumulated by the per-source loop equals the number of rows
it removed. -/
lemma fold_count (cutoff : Int) (k : Nat) :
    ∀ (L : List String) (st : List SnapshotRow × Nat),
      (st.1.map SnapshotRow.id).Nodup →
      (L.foldl (purge_source cutoff k) st).2 +
        (L.foldl (purge_source cutoff k) st).1.length = st.2 + st.1.length := by
  intro L
  induction L with
  | nil => intro st _; rfl
  | cons s L ih =>
    intro st hids
    simp only [List.foldl_cons]
    rw [ih _ (purge_source_ids_nodup cutoff k st s hids)]
    exact purge_source_count cutoff k st s hids

/-- Claim C8: `purge_retention` deletes, per source, exactly the snapshots
older than the cutoff outside the source's `min_keep` most recent; hence
each source keeps at least `min(min_keep, count)` snapshots, a source with
fewer than `min_keep` snapshots loses none, and the returned count is the
snapshots deleted plus the delivery rows older than the cutoff. -/
theorem claim_C8 (db : DbState) (now : Int) (days min_keep : Nat)
    (source : String)
    (hids : (db.snapshots.map SnapshotRow.id).Nodup) :
    srcFilter source (purge_retention db now days min_keep).1.snapshots =
      (srcFilter source db.snapshots).filter
        (keepPred (now - days * 86400)
          (protectedIds db.snapshots source min_keep)) ∧
    min min_keep (srcFilter source db.snapshots).length ≤
      (srcFilter source (purge_retention db now days min_keep).1.snapshots).length ∧
    ((srcFilter source db.snapshots).length < min_keep →
      srcFilter source (purge_retention db now days min_keep).1.snapshots =
        srcFilter source db.snapshots) ∧
    (purge_retention db now days min_keep).2 =
      (db.snapshots.length -
        (purge_retention db now days min_keep).1.snapshots.length) +
      (db.deliveries.filter fun dl =>
        decide (dl.sent_at < now - days * 86400)).length := by
  have hsnap : (purge_retention db now days min_keep).1.snapshots =
      ((distinct_sources db.snapshots).foldl
        (purge_source (now - days * 86400) min_keep) (db.snapshots, 0)).1 := by
    simp only [purge_retention]
  have hcnt : (purge_retention db now days min_keep).2 =
      ((distinct_sources db.snapshots).foldl
        (purge_source (now - days * 86400) min_keep) (db.snapshots, 0)).2 +
      (db.deliveries.filter fun dl =>
        decide (dl.sent_at < now - days * 86400)).length := by
    simp only [purge_retention]
  have h1 : srcFilter source (purge_retention db now days min_keep).1.snapshots =
      (srcFilter source db.snapshots).filter
        (keepPred (now - days * 86400)
          (protectedIds db.snapshots source min_keep)) := by
    rw [hsnap]
    by_cases hmem : source ∈ distinct_sources db.snapshots
    · exact fold_src_mem (now - days * 86400) min_keep
        (distinct_sources db.snapshots) (db.snapshots, 0) source
        (distinct_sources_nodup db.snapshots) hmem hids
    · rw [fold_src_not_mem (now - days * 86400) min_keep
        (distinct_sources db.snapshots) (db.snapshots, 0) source hmem hids]
      rw [srcFilter_eq_nil_of_not_mem db.snapshots source hmem]
      simp
  have hSnodup : ((srcFilter source db.snapshots).map SnapshotRow.id).Nodup :=
    ids_nodup_filter db.snapshots _ hids
  have hperm := List.perm_insertionSort
    (fun a b => b.collected_at ≤ a.collected_at) (srcFilter source db.snapshots)
  have hplen := hperm.length_eq
  have hsortednodup :
      ((List.insertionSort (fun a b => b.collected_at ≤ a.collected_at)
        (srcFilter source db.snapshots)).map SnapshotRow.id).Nodup :=
    (hperm.map SnapshotRow.id).nodup_iff.mpr hSnodup
  have hcount : ((List.insertionSort
        (fun a b => b.collected_at ≤ a.collected_at)
        (srcFilter source db.snapshots)).filter
      (fun a => decide (a.id ∈ protectedIds db.snapshots source min_keep))).length =
      min min_keep (List.insertionSort
        (fun a b => b.collected_at ≤ a.collected_at)
        (srcFilter source db.snapshots)).length :=
    length_filter_mem_take SnapshotRow.id _ min_keep hsortednodup
  have hlenp : ((srcFilter source db.snapshots).filter
      (fun a => decide (a.id ∈ protectedIds db.snapshots source min_keep))).length =
      min min_keep (srcFilter source db.snapshots).length := by
    rw [← (hperm.filter
      (fun a => decide (a.id ∈ protectedIds db.snapshots source min_keep))).length_eq]
    rw [hcount, hplen]
  have hidslen : (idsByCollectedDesc db.snapshots source).length =
      (srcFilter source db.snapshots).length := by
    show ((List.insertionSort (fun a b => b.collected_at ≤ a.collected_at)
      (srcFilter source db.snapshots)).map SnapshotRow.id).length = _
    rw [List.length_map, hplen]
  refine ⟨h1, ?_, ?_, ?_⟩
  · rw [h1]
    have hmono := filter_length_mono
      (fun a => decide (a.id ∈ protectedIds db.snapshots source min_keep))
      (keepPred (now - days * 86400) (protectedIds db.snapshots source min_keep))
      (srcFilter source db.snapshots)
      (by
        intro a _ hpa
        apply decide_eq_true
        rintro ⟨_, hnot⟩
        exact hnot (of_decide_eq_true hpa))
    calc min min_keep (srcFilter source db.snapshots).length
        = ((srcFilter source db.snapshots).filter
            (fun a => decide (a.id ∈ protectedIds db.snapshots source min_keep))).length :=
          hlenp.symm
      _ ≤ _ := hmono
  · intro hlt
    rw [h1]
    apply List.filter_eq_self.mpr
    intro r hr
    apply decide_eq_true
    rintro ⟨_, hnot⟩
    apply hnot
    have hmemids := mem_ids_of_mem_src db.snapshots source r hr
    have hlen_ids : (idsByCollectedDesc db.snapshots source).length ≤ min_keep := by
      omega
    unfold protectedIds
    rw [List.take_of_length_le hlen_ids]
    exact hmemids
  · rw [hcnt, hsnap]
    have hfold : ((distinct_sources db.snapshots).foldl
          (purge_source (now - days * 86400) min_keep) (db.snapshots, 0)).2 +
        ((distinct_sources db.snapshots).foldl
          (purge_source (now - days * 86400) min_keep) (db.snapshots, 0)).1.length =
        db.snapshots.length := by
      simpa using fold_count (now - days * 86400) min_keep
        (distinct_sources db.snapshots) (db.snapshots, 0) hids
    omega

/-- A concrete two-source snapshot table with one delivery row. -/
def c8Db : DbState :=
  { snapshots := [⟨1, "a", 100⟩, ⟨2, "a", 200⟩, ⟨3, "b", 50⟩],
    deliveries := [⟨1, 10⟩] }

/-- Witness for claim C8 on `c8Db`: source `a` keeps at least
`min(min_keep, 2)` snapshots after a purge. -/
theorem claim_C8_witness :
    ((c8Db.snapshots.map SnapshotRow.id).Nodup) ∧
    min 1 (srcFilter "a" c8Db.snapshots).length ≤
      (srcFilter "a" (purge_retention c8Db 1000000 1 1).1.snapshots).length :=
  ⟨by decide, (claim_C8 c8Db 1000000 1 1 "a" (by decide)).2.1⟩

end DataFold
